import Mathlib

/-!
Verification development for the BCF-Plugin-FreeCAD in-memory BCF object model
(`src/src/bcf/project.py`, `src/src/bcf/topic.py`, `bcfplugin/rdwr/markup.py`,
`bcfplugin/rdwr/threedvector.py`) and the programmatic-interface layer
(`bcfplugin/programmaticInterface.py`).

Python objects are embedded as Lean structures.  Every object carries
  * `tok` — the Python object identity (the allocation token; `a is b` in
    Python is `a.tok = b.tok` here),
  * `id`  — the `Identifiable` internal id (assigned at construction, kept by
    deep copies),
  * `containingObject` — the `Hierarchy` parent back-reference, stored as the
    parent's token.
Dynamically typed attribute values are embedded as the inductive `Val`;
Python truthiness and `==` over those values are `Val.truthy` and `Val.pyEq`.
Methods that can raise are embedded in `Except String`; an attribute read is
an explicit lookup in the list of attribute names the class's `__init__`
defines, so a read of a name that `__init__` never sets is an
`AttributeError`, exactly as in Python.

The helper modules `rdwr/project.py` (primitive wrappers, `searchListObject`,
`listSetContainingElement`, `Project.searchObject`), `rdwr/topic.py`,
`rdwr/modification.py`, `rdwr/viewpoint.py`, the `interfaces` package and
`rdwr/writer.py` are not part of the source tree; definitions taken from them
are modelled from the spec and carry a doc comment saying so.  (The copy of
`src/src/bcf/project.py` in the tree is a stale snapshot: its 3-argument
`SimpleElement`/`Attribute` constructors do not match the 4-argument calls in
`src/src/bcf/topic.py`, and it lacks `searchListObject` and `DEBUG`, both of
which `topic.py` imports from it.)
-/

/-- The dirty-state tag of `interfaces/state.py` (`State.States`):
ORIGINAL, ADDED, MODIFIED, DELETED. -/
inductive TState where
  | original
  | added
  | modified
  | deleted
  deriving DecidableEq, Repr

/-- `State.isOriginal()` predicate. -/
def TState.isOriginal : TState → Bool
  | .original => true
  | _ => false

/-- A Python `datetime` value, to second precision (the model only ever
formats them with second precision). -/
structure PyDateTime where
  year : Nat
  month : Nat
  day : Nat
  hour : Nat
  minute : Nat
  second : Nat
  deriving DecidableEq, Repr

/-- Left-pad a numeral with zeroes to the given width (Python `%02d`-style). -/
def padNum (width : Nat) (n : Nat) : String :=
  let s := toString n
  (String.mk (List.replicate (width - s.length) '0')) ++ s

/-- `strftime("%Y-%m-%d %X")` in the default C locale, where `%X` renders as
`%H:%M:%S`. -/
def PyDateTime.strftimeYmdX (t : PyDateTime) : String :=
  padNum 4 t.year ++ "-" ++ padNum 2 t.month ++ "-" ++ padNum 2 t.day ++ " " ++
    padNum 2 t.hour ++ ":" ++ padNum 2 t.minute ++ ":" ++ padNum 2 t.second

/-- A dynamically-typed Python attribute value as it occurs in the model:
`None`, strings, ints, bools, `UUID`s and `Uri`s (both carried as their
canonical string form) and `datetime`s. -/
inductive Val where
  | vnone
  | vstr (s : String)
  | vint (n : Int)
  | vbool (b : Bool)
  | vuuid (s : String)
  | vuri (s : String)
  | vdate (d : PyDateTime)
  deriving DecidableEq, Repr

/-- Python `==` on model values: values of different kinds compare unequal
(in particular `x == None` is `False` for non-`None` `x`), values of the same
kind compare by content. -/
def Val.pyEq : Val → Val → Bool
  | .vnone, .vnone => true
  | .vstr a, .vstr b => a == b
  | .vint a, .vint b => a == b
  | .vbool a, .vbool b => a == b
  | .vuuid a, .vuuid b => a == b
  | .vuri a, .vuri b => a == b
  | .vdate a, .vdate b => a == b
  | _, _ => false

/-- Python `str()` on model values; `str(None) = "None"`, `UUID` and `Uri`
render as their canonical string. -/
def Val.pyStr : Val → String
  | .vnone => "None"
  | .vstr s => s
  | .vint n => toString n
  | .vbool b => if b then "True" else "False"
  | .vuuid s => s
  | .vuri s => s
  | .vdate d => d.strftimeYmdX

/-- Python truthiness of model values: `None` is falsy, `""` is falsy, `0` is
falsy; `UUID`, `Uri` and `datetime` objects define no `__bool__` and are
always truthy. -/
def Val.truthy : Val → Bool
  | .vnone => false
  | .vstr s => !s.isEmpty
  | .vint n => n != 0
  | .vbool b => b
  | .vuuid _ => true
  | .vuri _ => true
  | .vdate _ => true

/-- The truth value of a Python tuple: a tuple is truthy iff it is non-empty,
regardless of its components. -/
def pyTupleTruthy (components : List Bool) : Bool :=
  !components.isEmpty

/-- A Python attribute read: look the name up among the attribute names the
class's `__init__` sets; a miss raises `AttributeError`.  `v` is the value
the attribute would have when present. -/
def pyReadAttr (initAttrs : List String) (name : String) (v : α) :
    Except String α :=
  if name ∈ initAttrs then Except.ok v
  else Except.error ("AttributeError: " ++ name)

/-- Modelled from the spec: `SimpleElement` of `bcfplugin/rdwr/project.py`
(absent from src/; the `src/src/bcf/project.py` snapshot is a stale
3-argument version incompatible with `topic.py`'s 4-argument calls).  Per the
spec a primitive wrapper holds a scalar, its XML tag name, its declared
default value and a dirty state, and composes `Identifiable` and
`Hierarchy`. -/
structure SimpleElement where
  tok : Nat
  id : Nat
  containingObject : Option Nat
  value : Val
  xmlName : String
  defaultValue : Val
  state : TState
  deriving DecidableEq, Repr

/-- Modelled from the spec: `Attribute` of `bcfplugin/rdwr/project.py`
(absent from src/), the wrapper for XML attributes, same shape as
`SimpleElement`. -/
structure Attribute where
  tok : Nat
  id : Nat
  containingObject : Option Nat
  value : Val
  xmlName : String
  defaultValue : Val
  state : TState
  deriving DecidableEq, Repr

/-- `SimpleList` of `src/src/bcf/project.py`: a list of plain scalars plus an
XML tag name and a parent back-reference; it composes neither `Identifiable`
nor `State`. -/
structure SimpleListV where
  tok : Nat
  containingObject : Option Nat
  xmlName : String
  items : List Val
  deriving DecidableEq, Repr

/-- Construct a `SimpleElement(value, xmlName, defaultValue, containingElement)`;
`c` is the allocation counter, used for both the object token and the
`Identifiable` internal id of the fresh wrapper. -/
def SimpleElement.init (c : Nat) (value : Val) (xmlName : String)
    (defaultValue : Val) (co : Option Nat) : SimpleElement × Nat :=
  ({ tok := c, id := c, containingObject := co, value := value,
     xmlName := xmlName, defaultValue := defaultValue,
     state := TState.original }, c + 1)

/-- Construct an `Attribute(value, xmlName, defaultValue, containingElement)`. -/
def Attribute.init (c : Nat) (value : Val) (xmlName : String)
    (defaultValue : Val) (co : Option Nat) : Attribute × Nat :=
  ({ tok := c, id := c, containingObject := co, value := value,
     xmlName := xmlName, defaultValue := defaultValue,
     state := TState.original }, c + 1)

/-- Modelled from the spec: the `value` property setter of the rdwr primitive
wrappers (absent from src/): "write the new value into the underlying
primitive wrapper, flip that wrapper's state to `MODIFIED` (unless already
`ADDED`)". -/
def SimpleElement.setValue (e : SimpleElement) (v : Val) : SimpleElement :=
  { e with
    value := v
    state := if e.state = TState.added then TState.added else TState.modified }

/-- Modelled from the spec: `getStateList` of a primitive wrapper "returns
`[(state, self)]` only if the wrapper's current value differs in state from
`ORIGINAL`"; the node is reported by its object token. -/
def SimpleElement.getStateListToks (e : SimpleElement) : List (TState × Nat) :=
  if e.state.isOriginal then [] else [(e.state, e.tok)]

/-- Modelled from the spec: `getStateList` of an `Attribute` wrapper, as for
`SimpleElement`. -/
def Attribute.getStateListToks (a : Attribute) : List (TState × Nat) :=
  if a.state.isOriginal then [] else [(a.state, a.tok)]

/-- Modelled from the spec: `Viewpoint` of `bcfplugin/rdwr/viewpoint.py`
(absent from src/).  Per the spec it is an external-collaborator entity
(camera+visibility); the model keeps only its identities, parent
back-reference and state. -/
structure Viewpoint where
  tok : Nat
  id : Nat
  containingObject : Option Nat
  state : TState
  deriving DecidableEq, Repr

/-- `DocumentReference` of `src/src/bcf/topic.py`: guid, external flag,
reference and description wrappers. -/
structure DocumentReference where
  tok : Nat
  id : Nat
  containingObject : Option Nat
  state : TState
  xmlName : String
  _guid : Attribute
  _external : Attribute
  _reference : SimpleElement
  _description : SimpleElement
  deriving DecidableEq, Repr

/-- `DocumentReference.__init__`: wrappers
`Attribute(guid, "Guid", UUID(int=0), self)`,
`Attribute(external, "isExternal", False, self)`,
`SimpleElement(reference, "ReferencedDocument", None, self)`,
`SimpleElement(description, "Description", "", self)`. -/
def DocumentReference.init (c : Nat) (guid external reference description : Val)
    (co : Option Nat) (st : TState) : DocumentReference × Nat :=
  let tok := c
  let (g, c1) := Attribute.init (c + 1) guid "Guid"
    (Val.vuuid "00000000-0000-0000-0000-000000000000") (some tok)
  let (e, c2) := Attribute.init c1 external "isExternal" (Val.vbool false)
    (some tok)
  let (r, c3) := SimpleElement.init c2 reference "ReferencedDocument" Val.vnone
    (some tok)
  let (d, c4) := SimpleElement.init c3 description "Description" (Val.vstr "")
    (some tok)
  ({ tok := tok, id := tok, containingObject := co, state := st,
     xmlName := "DocumentReference",
     _guid := g, _external := e, _reference := r, _description := d }, c4)

/-- `BimSnippet` of `src/src/bcf/topic.py`. -/
structure BimSnippet where
  tok : Nat
  id : Nat
  containingObject : Option Nat
  state : TState
  xmlName : String
  _type : Attribute
  _external : Attribute
  _reference : SimpleElement
  _schema : SimpleElement
  deriving DecidableEq, Repr

/-- `BimSnippet.__init__`. -/
def BimSnippet.init (c : Nat) (type external reference schema : Val)
    (co : Option Nat) (st : TState) : BimSnippet × Nat :=
  let tok := c
  let (t, c1) := Attribute.init (c + 1) type "SnippetType" (Val.vstr "")
    (some tok)
  let (e, c2) := Attribute.init c1 external "isExternal" (Val.vbool false)
    (some tok)
  let (r, c3) := SimpleElement.init c2 reference "Reference" Val.vnone
    (some tok)
  let (s, c4) := SimpleElement.init c3 schema "ReferenceSchema" Val.vnone
    (some tok)
  ({ tok := tok, id := tok, containingObject := co, state := st,
     xmlName := "BimSnippet",
     _type := t, _external := e, _reference := r, _schema := s }, c4)

/-- `Topic` of `src/src/bcf/topic.py`: ~20 fields.  `_date`, `_author`,
`_modDate`, `_modAuthor` are `ModificationDate`/`ModificationAuthor` objects
(`bcf/modification.py`, absent from src/), modelled from the spec as
primitive wrappers with default sentinels `None` (dates) and `""`
(authors). -/
structure Topic where
  tok : Nat
  id : Nat
  containingObject : Option Nat
  state : TState
  xmlName : String
  xmlId : String
  _title : SimpleElement
  _date : SimpleElement
  _author : SimpleElement
  _type : Attribute
  _status : Attribute
  referenceLinks : SimpleListV
  docRefs : List DocumentReference
  _priority : SimpleElement
  _index : SimpleElement
  labels : SimpleListV
  _modDate : SimpleElement
  _modAuthor : SimpleElement
  _dueDate : SimpleElement
  _assignee : SimpleElement
  _description : SimpleElement
  _stage : SimpleElement
  relatedTopics : SimpleListV
  bimSnippet : Option BimSnippet
  deriving DecidableEq, Repr

/-- `Topic.__init__`: builds the wrappers with the defaults of
`src/src/bcf/topic.py` lines 325-346 and re-stamps `containingObject` of
every document reference and of the bim snippet to the topic itself
(lines 349-354). -/
def Topic.init (c : Nat) (xmlId : String) (title date author type status : Val)
    (referenceLinks : List Val) (docRefs : List DocumentReference)
    (priority index : Val) (labels : List Val) (modDate modAuthor : Val)
    (dueDate assignee description stage : Val) (relatedTopics : List Val)
    (bimSnippet : Option BimSnippet) (co : Option Nat) (st : TState) :
    Topic × Nat :=
  let tok := c
  let (ti, c1) := SimpleElement.init (c + 1) title "Title" (Val.vstr "")
    (some tok)
  let (da, c2) := SimpleElement.init c1 date "Date" Val.vnone (some tok)
  let (au, c3) := SimpleElement.init c2 author "Author" (Val.vstr "")
    (some tok)
  let (ty, c4) := Attribute.init c3 type "TopicType" (Val.vstr "") (some tok)
  let (sta, c5) := Attribute.init c4 status "TopicStatus" (Val.vstr "")
    (some tok)
  let refLinks : SimpleListV :=
    { tok := c5, containingObject := some tok, xmlName := "ReferenceLink",
      items := referenceLinks }
  let (pr, c6) := SimpleElement.init (c5 + 1) priority "Priority" (Val.vstr "")
    (some tok)
  let (ix, c7) := SimpleElement.init c6 index "Index" (Val.vint (-1))
    (some tok)
  let lbls : SimpleListV :=
    { tok := c7, containingObject := some tok, xmlName := "Labels",
      items := labels }
  let (md, c8) := SimpleElement.init (c7 + 1) modDate "ModifiedDate" Val.vnone
    (some tok)
  let (ma, c9) := SimpleElement.init c8 modAuthor "ModifiedAuthor"
    (Val.vstr "") (some tok)
  let (dd, c10) := SimpleElement.init c9 dueDate "DueDate" Val.vnone (some tok)
  let (asg, c11) := SimpleElement.init c10 assignee "AssignedTo" (Val.vstr "")
    (some tok)
  let (de, c12) := SimpleElement.init c11 description "Description"
    (Val.vstr "") (some tok)
  let (stg, c13) := SimpleElement.init c12 stage "Stage" (Val.vstr "")
    (some tok)
  let relTopics : SimpleListV :=
    { tok := c13, containingObject := some tok, xmlName := "RelatedTopic",
      items := relatedTopics }
  ({ tok := tok, id := tok, containingObject := co, state := st,
     xmlName := "Topic", xmlId := xmlId,
     _title := ti, _date := da, _author := au, _type := ty, _status := sta,
     referenceLinks := refLinks,
     docRefs := docRefs.map (fun d => { d with containingObject := some tok }),
     _priority := pr, _index := ix, labels := lbls,
     _modDate := md, _modAuthor := ma, _dueDate := dd, _assignee := asg,
     _description := de, _stage := stg, relatedTopics := relTopics,
     bimSnippet := bimSnippet.map
       (fun b => { b with containingObject := some tok }) }, c13 + 1)

/-- `HeaderFile` of `bcfplugin/rdwr/markup.py`. -/
structure HeaderFile where
  tok : Nat
  id : Nat
  containingObject : Option Nat
  state : TState
  xmlName : String
  _ifcProjectId : Attribute
  _ifcSpatialStructureElement : Attribute
  _external : Attribute
  _filename : SimpleElement
  _time : SimpleElement
  _reference : SimpleElement
  deriving DecidableEq, Repr

/-- `HeaderFile.__init__` (markup.py lines 54-75); `XMLName.__init__(self,
"File")`, external defaults to `True`. -/
def HeaderFile.init (c : Nat)
    (ifcProjectId ifcSpatialStructureElement isExternal filename time
      reference : Val) (st : TState) (co : Option Nat) : HeaderFile × Nat :=
  let tok := c
  let (pid, c1) := Attribute.init (c + 1) ifcProjectId "IfcProject"
    (Val.vstr "") (some tok)
  let (sse, c2) := Attribute.init c1 ifcSpatialStructureElement
    "IfcSpatialStructureElement" (Val.vstr "") (some tok)
  let (ext, c3) := Attribute.init c2 isExternal "isExternal" (Val.vbool true)
    (some tok)
  let (fn, c4) := SimpleElement.init c3 filename "Filename" (Val.vstr "")
    (some tok)
  let (tm, c5) := SimpleElement.init c4 time "Date" Val.vnone (some tok)
  let (rf, c6) := SimpleElement.init c5 reference "Reference" (Val.vstr "")
    (some tok)
  ({ tok := tok, id := tok, containingObject := co, state := st,
     xmlName := "File",
     _ifcProjectId := pid, _ifcSpatialStructureElement := sse,
     _external := ext, _filename := fn, _time := tm, _reference := rf }, c6)

/-- `Header` of `bcfplugin/rdwr/markup.py`. -/
structure Header where
  tok : Nat
  id : Nat
  containingObject : Option Nat
  state : TState
  xmlName : String
  files : List HeaderFile
  deriving DecidableEq, Repr

/-- `Header.__init__` (markup.py lines 270-284): sets `containingObject` of
every file to the header itself. -/
def Header.init (c : Nat) (files : List HeaderFile) (co : Option Nat)
    (st : TState) : Header × Nat :=
  let tok := c
  ({ tok := tok, id := tok, containingObject := co, state := st,
     xmlName := "Header",
     files := files.map (fun f => { f with containingObject := some tok }) },
   c + 1)

/-- `ViewpointReference` of `bcfplugin/rdwr/markup.py`. -/
structure ViewpointReference where
  tok : Nat
  id : Nat
  containingObject : Option Nat
  state : TState
  xmlName : String
  xmlId : String
  _file : SimpleElement
  _snapshot : SimpleElement
  _index : SimpleElement
  _viewpoint : Option Viewpoint
  deriving DecidableEq, Repr

/-- `ViewpointReference.__init__` (markup.py lines 358-376):
`XMLName.__init__(self, "Viewpoints")`, `_viewpoint` starts as `None`. -/
def ViewpointReference.init (c : Nat) (xmlId : String)
    (file snapshot index : Val) (co : Option Nat) (st : TState) :
    ViewpointReference × Nat :=
  let tok := c
  let (f, c1) := SimpleElement.init (c + 1) file "Viewpoint" Val.vnone
    (some tok)
  let (s, c2) := SimpleElement.init c1 snapshot "Snapshot" Val.vnone (some tok)
  let (i, c3) := SimpleElement.init c2 index "Index" (Val.vint (-1))
    (some tok)
  ({ tok := tok, id := tok, containingObject := co, state := st,
     xmlName := "Viewpoints", xmlId := xmlId,
     _file := f, _snapshot := s, _index := i, _viewpoint := none }, c3)

/-- The `viewpoint` property setter of `ViewpointReference` (markup.py lines
471-480): a `Viewpoint` is stored and its `containingObject` re-stamped to
the reference; `None` clears the member. -/
def ViewpointReference.setViewpoint (v : ViewpointReference)
    (newVal : Option Viewpoint) : ViewpointReference :=
  match newVal with
  | some vp => { v with _viewpoint := some { vp with
      containingObject := some v.tok } }
  | none => { v with _viewpoint := none }

/-- `Comment` of `bcfplugin/rdwr/markup.py`.  `_date`, `_author`, `_modDate`,
`_modAuthor` are `ModificationDate`/`ModificationAuthor` wrappers
(`rdwr/modification.py`, absent from src/), modelled from the spec with
default sentinels `None` (dates) and `""` (authors). -/
structure Comment where
  tok : Nat
  id : Nat
  containingObject : Option Nat
  state : TState
  xmlName : String
  xmlId : String
  _comment : SimpleElement
  viewpoint : Option ViewpointReference
  _date : SimpleElement
  _author : SimpleElement
  _modDate : SimpleElement
  _modAuthor : SimpleElement
  deriving DecidableEq, Repr

/-- `Comment.__init__` (markup.py lines 547-572):
`self._comment = SimpleElement(comment, "Comment", "", self)`; `viewpoint` is
stored by plain attribute assignment (no re-stamping). -/
def Comment.init (c : Nat) (guid : String) (date author comment : Val)
    (viewpoint : Option ViewpointReference) (modDate modAuthor : Val)
    (co : Option Nat) (st : TState) : Comment × Nat :=
  let tok := c
  let (cm, c1) := SimpleElement.init (c + 1) comment "Comment" (Val.vstr "")
    (some tok)
  let (da, c2) := SimpleElement.init c1 date "Date" Val.vnone (some tok)
  let (au, c3) := SimpleElement.init c2 author "Author" (Val.vstr "")
    (some tok)
  let (md, c4) := SimpleElement.init c3 modDate "ModifiedDate" Val.vnone
    (some tok)
  let (ma, c5) := SimpleElement.init c4 modAuthor "ModifiedAuthor"
    (Val.vstr "") (some tok)
  ({ tok := tok, id := tok, containingObject := co, state := st,
     xmlName := "Comment", xmlId := guid,
     _comment := cm, viewpoint := viewpoint,
     _date := da, _author := au, _modDate := md, _modAuthor := ma }, c5)

/-- `Markup` of `bcfplugin/rdwr/markup.py`. -/
structure Markup where
  tok : Nat
  id : Nat
  containingObject : Option Nat
  state : TState
  xmlName : String
  header : Option Header
  topic : Option Topic
  comments : List Comment
  viewpoints : List ViewpointReference
  snapshotFiles : List String
  deriving DecidableEq, Repr

/-- `Markup.__init__` (markup.py lines 769-796): stores the members and
re-stamps `containingObject` of every viewpoint reference, every comment, the
topic (if any) and the header (if any) to the markup itself. -/
def Markup.init (c : Nat) (topic : Option Topic) (header : Option Header)
    (comments : List Comment) (viewpoints : List ViewpointReference)
    (snapshotFiles : List String) (co : Option Nat) (st : TState) :
    Markup × Nat :=
  let tok := c
  ({ tok := tok, id := tok, containingObject := co, state := st,
     xmlName := "Markup",
     header := header.map (fun h => { h with containingObject := some tok }),
     topic := topic.map (fun t => { t with containingObject := some tok }),
     comments := comments.map
       (fun cm => { cm with containingObject := some tok }),
     viewpoints := viewpoints.map
       (fun v => { v with containingObject := some tok }),
     snapshotFiles := snapshotFiles }, c + 1)

/-- `Project` of `src/src/bcf/project.py`: `Identifiable.__init__(self, uuid)`
makes the supplied uuid the project's internal id; `_name` and
`_extSchemaSrc` are `SimpleElement`s tagged `Name` and `ExtensionSchema`
(defaults modelled from the spec: the rdwr wrapper defaults are `""` and
`None`). -/
structure Project where
  tok : Nat
  id : Nat
  containingObject : Option Nat
  state : TState
  xmlName : String
  _name : SimpleElement
  _extSchemaSrc : SimpleElement
  topicList : List Markup
  deriving DecidableEq, Repr

/-- `Project.__init__` (project.py lines 71-85); the project is the topmost
element, its `containingObject` is `None`. -/
def Project.init (c : Nat) (uuid : Nat) (name extSchemaSrc : Val)
    (st : TState) : Project × Nat :=
  let tok := c
  let (n, c1) := SimpleElement.init (c + 1) name "Name" (Val.vstr "")
    (some tok)
  let (e, c2) := SimpleElement.init c1 extSchemaSrc "ExtensionSchema" Val.vnone
    (some tok)
  ({ tok := tok, id := uuid, containingObject := none, state := st,
     xmlName := "Project",
     _name := n, _extSchemaSrc := e, topicList := [] }, c2)

/-- A reference to a node of the data model, as returned by `searchObject`
and reported by `getStateList`. -/
inductive Node where
  | selem (e : SimpleElement)
  | attr (a : Attribute)
  | viewpoint (v : Viewpoint)
  | docRef (d : DocumentReference)
  | bimSnippet (b : BimSnippet)
  | topic (t : Topic)
  | headerFile (f : HeaderFile)
  | header (h : Header)
  | vpRef (v : ViewpointReference)
  | comment (c : Comment)
  | markup (m : Markup)
  | project (p : Project)
  deriving DecidableEq, Repr

/-- The `Identifiable` internal id of a node. -/
def Node.id : Node → Nat
  | .selem e => e.id
  | .attr a => a.id
  | .viewpoint v => v.id
  | .docRef d => d.id
  | .bimSnippet b => b.id
  | .topic t => t.id
  | .headerFile f => f.id
  | .header h => h.id
  | .vpRef v => v.id
  | .comment c => c.id
  | .markup m => m.id
  | .project p => p.id

/-- The object token of a node. -/
def Node.tok : Node → Nat
  | .selem e => e.tok
  | .attr a => a.tok
  | .viewpoint v => v.tok
  | .docRef d => d.tok
  | .bimSnippet b => b.tok
  | .topic t => t.tok
  | .headerFile f => f.tok
  | .header h => h.tok
  | .vpRef v => v.tok
  | .comment c => c.tok
  | .markup m => m.tok
  | .project p => p.tok

/-- The `title` property setter of `Topic` (topic.py lines 457-459):
`self._title.value = newVal`. -/
def Topic.setTitle (t : Topic) (newVal : Val) : Topic :=
  { t with _title := t._title.setValue newVal }

/-- The `name` property setter of `Project` (project.py lines 91-93):
`self._name.value = newVal`. -/
def Project.setName (p : Project) (newVal : Val) : Project :=
  { p with _name := p._name.setValue newVal }

/-- The `comment` property setter of `Comment` (markup.py lines 692-694):
`self._comment.value = newVal`. -/
def Comment.setComment (c : Comment) (newVal : Val) : Comment :=
  { c with _comment := c._comment.setValue newVal }

/-- The attribute names `DocumentReference.__init__` sets (topic.py lines
31-40, including those set by the composed capability interfaces). -/
def DocumentReference.initAttrs : List String :=
  ["containingObject", "state", "xmlName", "id",
   "_guid", "_external", "_reference", "_description"]

/-- `DocumentReference.getStateList` (topic.py lines 133-144): the object's
own pair when not original, then the pairs of its four wrappers. -/
def DocumentReference.getStateListToks (d : DocumentReference) :
    List (TState × Nat) :=
  (if d.state.isOriginal then [] else [(d.state, d.tok)]) ++
    d._guid.getStateListToks ++ d._external.getStateListToks ++
    d._reference.getStateListToks ++ d._description.getStateListToks

/-- `BimSnippet.getStateList` (topic.py lines 262-273). -/
def BimSnippet.getStateListToks (b : BimSnippet) : List (TState × Nat) :=
  (if b.state.isOriginal then [] else [(b.state, b.tok)]) ++
    b._type.getStateListToks ++ b._external.getStateListToks ++
    b._reference.getStateListToks ++ b._schema.getStateListToks

/-- The attribute names `Topic.__init__` sets (topic.py lines 320-354). -/
def Topic.initAttrs : List String :=
  ["containingObject", "xmlId", "state", "xmlName", "id",
   "_title", "_date", "_author", "_type", "_status", "referenceLinks",
   "docRefs", "_priority", "_index", "labels", "_modDate", "_modAuthor",
   "_dueDate", "_assignee", "_description", "_stage", "relatedTopics",
   "bimSnippet"]

/-- `Topic.getStateList` (topic.py lines 641-671), transcribed line by line.
The method reads `self.creation` (line 648), `self.refs` (line 652) and
`self.lastModification` (line 658); none of these names is ever set by
`Topic.__init__` (which sets `_date`, `docRefs` and `_modDate` instead), so
the read of `creation` raises `AttributeError`.  `SimpleList.getStateList`
does not exist either (`SimpleList` composes no `State`; the source marks
those call sites `#TODO`), but the `creation` read fails first. -/
def Topic.getStateList (t : Topic) : Except String (List (TState × Nat)) := do
  let sl0 := if t.state.isOriginal then [] else [(t.state, t.tok)]
  let sl1 := sl0 ++ t._title.getStateListToks
  -- stateList += self.creation.getStateList()
  let creationSl ← pyReadAttr Topic.initAttrs "creation"
    ([] : List (TState × Nat))
  -- (the value argument above is irrelevant: "creation" is not in
  -- Topic.initAttrs, so the read always throws and the rest is dead)
  let sl2 := sl1 ++ creationSl ++ t._type.getStateListToks ++
    t._status.getStateListToks
  let refsSl ← pyReadAttr Topic.initAttrs "refs" ([] : List (TState × Nat))
  let sl3 := sl2 ++ refsSl ++ t._priority.getStateListToks ++
    t._index.getStateListToks
  let lastModSl ← pyReadAttr Topic.initAttrs "lastModification"
    ([] : List (TState × Nat))
  let sl4 := sl3 ++ lastModSl ++ t._dueDate.getStateListToks ++
    t._assignee.getStateListToks ++ t._description.getStateListToks ++
    t._stage.getStateListToks ++
    (match t.bimSnippet with
     | some b => b.getStateListToks
     | none => [])
  pure sl4

/-- The attribute names `Comment.__init__` sets (markup.py lines 547-572). -/
def Comment.initAttrs : List String :=
  ["containingObject", "xmlId", "state", "xmlName", "id",
   "_comment", "viewpoint", "_date", "_author", "_modDate", "_modAuthor"]

/-- `Comment.getStateList` (markup.py lines 734-745), transcribed line by
line.  It reads `self.creation` (line 740) and `self.lastModification`
(line 743); `Comment.__init__` sets `_date` and `_modDate` instead, so the
read of `creation` raises `AttributeError`. -/
def Comment.getStateList (c : Comment) : Except String (List (TState × Nat)) := do
  let sl0 := if c.state.isOriginal then [] else [(c.state, c.tok)]
  -- stateList += self.creation.getStateList()
  let creationSl ← pyReadAttr Comment.initAttrs "creation"
    ([] : List (TState × Nat))
  -- (dead from here on: "creation" is not in Comment.initAttrs)
  let sl1 := sl0 ++ creationSl ++ c._comment.getStateListToks
  -- viewpoint is already added to list by Markup
  let lastModSl ← pyReadAttr Comment.initAttrs "lastModification"
    ([] : List (TState × Nat))
  pure (sl1 ++ lastModSl)

/-- `HeaderFile.getStateList` (markup.py lines 236-248): own pair plus the
pairs of `_ifcProjectId`, `_ifcSpatialStructureElement`, `_external`,
`_filename` and `_reference` — the `_time` wrapper is not consulted. -/
def HeaderFile.getStateListToks (f : HeaderFile) : List (TState × Nat) :=
  (if f.state.isOriginal then [] else [(f.state, f.tok)]) ++
    f._ifcProjectId.getStateListToks ++
    f._ifcSpatialStructureElement.getStateListToks ++
    f._external.getStateListToks ++ f._filename.getStateListToks ++
    f._reference.getStateListToks

/-- `Header.getStateList` (markup.py lines 301-310). -/
def Header.getStateListToks (h : Header) : List (TState × Nat) :=
  (if h.state.isOriginal then [] else [(h.state, h.tok)]) ++
    (h.files.map HeaderFile.getStateListToks).flatten

/-- Modelled from the spec: `Viewpoint.getStateList`
(`rdwr/viewpoint.py`, absent from src/): the entity contributes its own
(state, self) pair when its state is not `ORIGINAL`. -/
def Viewpoint.getStateListToks (v : Viewpoint) : List (TState × Nat) :=
  if v.state.isOriginal then [] else [(v.state, v.tok)]

/-- `ViewpointReference.getStateList` (markup.py lines 512-525). -/
def ViewpointReference.getStateListToks (v : ViewpointReference) :
    List (TState × Nat) :=
  (if v.state.isOriginal then [] else [(v.state, v.tok)]) ++
    v._file.getStateListToks ++ v._snapshot.getStateListToks ++
    v._index.getStateListToks ++
    (match v._viewpoint with
     | some vp => vp.getStateListToks
     | none => [])

/-- `Markup.getStateList` (markup.py lines 925-942): own pair, then the
topic's list, the header's (if any), every comment's and every viewpoint
reference's.  `Topic.getStateList` and `Comment.getStateList` raise
`AttributeError` (see their definitions), so the whole walk is fallible. -/
def Markup.getStateList (m : Markup) : Except String (List (TState × Nat)) := do
  let sl0 := if m.state.isOriginal then [] else [(m.state, m.tok)]
  let topicSl ← match m.topic with
    | some t => t.getStateList
    | none => Except.error "AttributeError: NoneType has no getStateList"
  let headerSl := match m.header with
    | some h => h.getStateListToks
    | none => []
  let commentSls ← m.comments.mapM Comment.getStateList
  let vpSls := m.viewpoints.map ViewpointReference.getStateListToks
  pure (sl0 ++ topicSl ++ headerSl ++ commentSls.flatten ++ vpSls.flatten)

/-- `Markup.getSnapshotFileList` (markup.py lines 883-892): builds
`snapshotList` from the viewpoints' truthy `snapshot` attributes — and then
returns `self.snapshotFiles`. -/
def Markup.getSnapshotFileList (m : Markup) : List String :=
  let snapshotList := (m.viewpoints.filter
    (fun vp => vp._snapshot.value.truthy)).map
      (fun vp => vp._snapshot.value.pyStr)
  m.snapshotFiles

/-- `Comment.__str__` (markup.py lines 637-653): `"{} -- {}, {}"` of the
comment text, the author and `date.strftime("%Y-%m-%d %X")`, with
`" modified on {modDate}"` appended when `modDate` differs from the
`ModificationDate` wrapper's default.  `strftime` on a `None` creation date
raises. -/
def Comment.pyStr (c : Comment) : Except String String := do
  let d ← match c._date.value with
    | .vdate dt => pure dt
    | _ => Except.error "AttributeError: strftime on a non-datetime date"
  let ret := c._comment.value.pyStr ++ " -- " ++ c._author.value.pyStr ++
    ", " ++ d.strftimeYmdX
  if c._modDate.value.pyEq c._modDate.defaultValue then
    pure ret
  else do
    let md ← match c._modDate.value with
      | .vdate mdt => pure mdt
      | _ => Except.error "AttributeError: strftime on a non-datetime modDate"
    pure (ret ++ " modified on " ++ md.strftimeYmdX)

/-- An `xml.etree.ElementTree.Element`: tag, attributes (in insertion order),
optional text and child elements (in insertion order). -/
inductive XmlElem where
  | node (tag : String) (attribs : List (String × String))
      (text : Option String) (children : List XmlElem)

/-- The tag of an element. -/
def XmlElem.tag : XmlElem → String
  | .node t _ _ _ => t

/-- The attributes of an element. -/
def XmlElem.attribs : XmlElem → List (String × String)
  | .node _ a _ _ => a

/-- The text of an element. -/
def XmlElem.text : XmlElem → Option String
  | .node _ _ t _ => t

/-- The children of an element. -/
def XmlElem.children : XmlElem → List XmlElem
  | .node _ _ _ c => c

/-- Overwrite the tag (`elem.tag = ...`). -/
def XmlElem.setTag (e : XmlElem) (t : String) : XmlElem :=
  .node t e.attribs e.text e.children

/-- Add an attribute (`elem.attrib[k] = v`). -/
def XmlElem.setAttrib (e : XmlElem) (k v : String) : XmlElem :=
  .node e.tag (e.attribs ++ [(k, v)]) e.text e.children

/-- Append a child (`ET.SubElement(elem, tag)` followed by mutations of the
returned child). -/
def XmlElem.addChild (e : XmlElem) (child : XmlElem) : XmlElem :=
  .node e.tag e.attribs e.text (e.children ++ [child])

/-- A fresh element as `ET.SubElement` creates it, before mutation. -/
def XmlElem.fresh (tag : String) : XmlElem :=
  .node tag [] none []

/-- `DocumentReference.getEtElement` (topic.py lines 101-130).  The `Guid`,
`isExternal` and `Description` parts are guarded by `self.x != defaultValue`;
the `ReferencedDocument` part is guarded by
`str(self.reference) != defaultValue`, which compares a string against the
default `None` and is therefore true for every value of `reference`. -/
def DocumentReference.getEtElement (d : DocumentReference) (elem : XmlElem) :
    XmlElem :=
  let e0 := elem.setTag d.xmlName
  -- guid is optional in DocumentReference
  let e1 := if !(d._guid.value.pyEq d._guid.defaultValue) then
      e0.setAttrib "Guid" d._guid.value.pyStr
    else e0
  let e2 := if !(d._external.value.pyEq d._external.defaultValue) then
      e1.setAttrib "isExternal" d._external.value.pyStr.toLower
    else e1
  -- if str(self.reference) != defaultValue:
  let e3 := if !((Val.vstr d._reference.value.pyStr).pyEq
      d._reference.defaultValue) then
      e2.addChild (.node "ReferencedDocument" [] (some d._reference.value.pyStr) [])
    else e2
  let e4 := if !(d._description.value.pyEq d._description.defaultValue) then
      e3.addChild (.node "Description" [] (some d._description.value.pyStr) [])
    else e3
  e4

/-- `Point` of `bcfplugin/rdwr/threedvector.py`: a `ThreeDVector` whose
`xmlName` is the class name `"Point"`. -/
structure Point where
  tok : Nat
  containingObject : Option Nat
  state : TState
  xmlName : String
  x : Val
  y : Val
  z : Val
  deriving DecidableEq, Repr

/-- `Point.__init__` (threedvector.py lines 108-116):
`ThreeDVector.__init__(self, x, y, z, containingElement, state,
self.__class__.__name__)`. -/
def Point.init (c : Nat) (x y z : Val) (co : Option Nat) (st : TState) :
    Point × Nat :=
  ({ tok := c, containingObject := co, state := st, xmlName := "Point",
     x := x, y := y, z := z }, c + 1)

/-- `ThreeDVector.getEtElement` (threedvector.py lines 79-98), which
`Point.getEtElement` delegates to: overwrite the tag with the object's
`xmlName` and append `X`, `Y`, `Z` children holding `str()` of the
coordinates. -/
def Point.getEtElement (p : Point) (elem : XmlElem) : XmlElem :=
  let e0 := elem.setTag p.xmlName
  let e1 := e0.addChild (.node "X" [] (some p.x.pyStr) [])
  let e2 := e1.addChild (.node "Y" [] (some p.y.pyStr) [])
  e2.addChild (.node "Z" [] (some p.z.pyStr) [])

/-- `Line` of `bcfplugin/rdwr/threedvector.py`. -/
structure Line where
  tok : Nat
  containingObject : Option Nat
  state : TState
  xmlName : String
  start : Option Point
  lineEnd : Option Point
  deriving DecidableEq, Repr

/-- The attribute names `Line.__init__` sets (threedvector.py lines
189-205): the members are called `start` and `end` (here `lineEnd`, since
`end` is reserved in Lean). -/
def Line.initAttrs : List String :=
  ["containingObject", "state", "xmlName", "start", "end"]

/-- `Line.__init__` (threedvector.py lines 189-205): stores `start` and
`end` and re-stamps their `containingObject` when not `None`;
`XMLName.__init__(self)` defaults the tag to the class name. -/
def Line.init (c : Nat) (start lineEnd : Option Point) (co : Option Nat)
    (st : TState) : Line × Nat :=
  let tok := c
  ({ tok := tok, containingObject := co, state := st, xmlName := "Line",
     start := start.map (fun p => { p with containingObject := some tok }),
     lineEnd := lineEnd.map
       (fun p => { p with containingObject := some tok }) }, c + 1)

/-- `Line.getEtElement` (threedvector.py lines 233-249), transcribed line by
line: after serializing `self.start` into the `StartPoint` child it reads
`self.stop` — an attribute `Line.__init__` never sets (the member is named
`end`), so the read raises `AttributeError`. -/
def Line.getEtElement (l : Line) (elem : XmlElem) : Except String XmlElem := do
  let e0 := elem.setTag l.xmlName
  -- startElem = ET.SubElement(elem, "StartPoint");
  -- startElem = self.start.getEtElement(startElem)
  let startElem ← match l.start with
    | some p => pure (p.getEtElement (XmlElem.fresh "StartPoint"))
    | none => Except.error "AttributeError: NoneType has no getEtElement"
  let e1 := e0.addChild startElem
  -- stopElem = ET.SubElement(elem, "StopPoint");
  -- stopElem = self.stop.getEtElement(stopElem)
  let stop ← pyReadAttr Line.initAttrs "stop" l.lineEnd
  -- (dead from here on: "stop" is not in Line.initAttrs)
  let stopElem ← match stop with
    | some p => pure (p.getEtElement (XmlElem.fresh "StopPoint"))
    | none => Except.error "AttributeError: NoneType has no getEtElement"
  pure (e1.addChild stopElem)

/-- `Topic.__checkNone` (topic.py lines 462-469): when both arguments are
truthy compare them, when both are `None` return `True`, otherwise
`False`. -/
def checkNoneEq (this that : Val) : Bool :=
  if this.truthy && that.truthy then this.pyEq that
  else if this == Val.vnone && that == Val.vnone then true
  else false

/-- Python `==` on two lists: equal lengths and element-wise equality, where
an element comparison counts as equal when the element's `__eq__` result is
truthy. -/
def listEqPy (f : α → α → Bool) (as bs : List α) : Bool :=
  as.length == bs.length && (List.zip as bs).all (fun p => f p.1 p.2)

/-- `SimpleList.__eq__` (project.py lines 52-55): `list.__eq__` on the
items and `XMLName.__eq__` (tag-name equality) must both hold. -/
def SimpleListV.eqPy (a b : SimpleListV) : Bool :=
  listEqPy Val.pyEq a.items b.items && a.xmlName == b.xmlName

/-- `DocumentReference.__eq__` (topic.py lines 78-90): guid, external,
reference and description must match (the type check always passes between
two document references). -/
def DocumentReference.eqPy (a b : DocumentReference) : Bool :=
  a._guid.value.pyEq b._guid.value &&
  a._external.value.pyEq b._external.value &&
  a._reference.value.pyEq b._reference.value &&
  a._description.value.pyEq b._description.value

/-- `BimSnippet.__eq__` (topic.py lines 215-227). -/
def BimSnippet.eqPy (a b : BimSnippet) : Bool :=
  a._type.value.pyEq b._type.value &&
  a._external.value.pyEq b._external.value &&
  a._reference.value.pyEq b._reference.value &&
  a._schema.value.pyEq b._schema.value

/-- `Topic.__eq__` (topic.py lines 478-527).  The return expression at lines
509-526 contains `self.modAuthor, other.modAuthor` — a comma, not a
comparison — so the whole `return` yields a 2-tuple
`(... and self.modAuthor, other.modAuthor and ...)`.  The two components are
transcribed faithfully below, but every caller of `==` only uses the truth
value of the result, and a 2-element tuple is truthy no matter what its
components are (`pyTupleTruthy`). -/
def Topic.eqPy (a b : Topic) : Bool :=
  let fst := a.xmlId == b.xmlId &&
    a._title.value.pyEq b._title.value &&
    checkNoneEq a._date.value b._date.value &&
    a._author.value.pyEq b._author.value &&
    a._type.value.pyEq b._type.value &&
    a._status.value.pyEq b._status.value &&
    listEqPy DocumentReference.eqPy a.docRefs b.docRefs &&
    a._priority.value.pyEq b._priority.value &&
    a._index.value.pyEq b._index.value &&
    a.labels.eqPy b.labels &&
    checkNoneEq a._modDate.value b._modDate.value &&
    a._modAuthor.value.truthy
  let snd := b._modAuthor.value.truthy &&
    checkNoneEq a._dueDate.value b._dueDate.value &&
    a._assignee.value.pyEq b._assignee.value &&
    a._description.value.pyEq b._description.value &&
    a._stage.value.pyEq b._stage.value &&
    a.relatedTopics.eqPy b.relatedTopics &&
    (match a.bimSnippet, b.bimSnippet with
     | some x, some y => BimSnippet.eqPy x y
     | none, none => true
     | _, _ => false)
  pyTupleTruthy [fst, snd]

/-- Modelled from the spec: `Viewpoint.__eq__` (`rdwr/viewpoint.py`, absent
from src/); its contents are external-collaborator data, so two viewpoints
are compared here by object identity (token), which is also Python's default
`__eq__`. -/
def Viewpoint.eqPy (a b : Viewpoint) : Bool :=
  a.tok == b.tok

/-- `ViewpointReference.__eq__` (markup.py lines 405-421): guid, file,
snapshot, index and the embedded viewpoint must match (`None` viewpoints
compare equal to each other). -/
def ViewpointReference.eqPy (a b : ViewpointReference) : Bool :=
  a.xmlId == b.xmlId &&
  a._file.value.pyEq b._file.value &&
  a._snapshot.value.pyEq b._snapshot.value &&
  a._index.value.pyEq b._index.value &&
  (match a._viewpoint, b._viewpoint with
   | some x, some y => Viewpoint.eqPy x y
   | none, none => true
   | _, _ => false)

/-- `Comment.__eq__` (markup.py lines 608-634). -/
def Comment.eqPy (a b : Comment) : Bool :=
  a.xmlId == b.xmlId &&
  (a._date.value.pyEq b._date.value ||
    (a._date.value == Val.vnone && b._date.value == Val.vnone)) &&
  a._author.value.pyEq b._author.value &&
  (a._comment.value.pyEq b._comment.value ||
    (a._comment.value == Val.vnone && b._comment.value == Val.vnone)) &&
  (match a.viewpoint, b.viewpoint with
   | some x, some y => ViewpointReference.eqPy x y
   | none, none => true
   | _, _ => false) &&
  (a._modDate.value.pyEq b._modDate.value ||
    (a._modDate.value == Val.vnone && b._modDate.value == Val.vnone)) &&
  a._modAuthor.value.pyEq b._modAuthor.value

/-- `Markup.__eq__` (markup.py lines 821-833): header, topic, comments and
viewpoints.  `Header` defines no `__eq__`, so `self.header == other.header`
falls back to Python's default identity comparison (`None == None` is
`True`); `self.topic == other.topic` uses the truth value of
`Topic.__eq__`'s 2-tuple result. -/
def Markup.eqPy (a b : Markup) : Bool :=
  (match a.header, b.header with
   | some x, some y => x.tok == y.tok
   | none, none => true
   | _, _ => false) &&
  (match a.topic, b.topic with
   | some x, some y => Topic.eqPy x y
   | none, none => true
   | _, _ => false) &&
  listEqPy Comment.eqPy a.comments b.comments &&
  listEqPy ViewpointReference.eqPy a.viewpoints b.viewpoints

/-- `Project.__eq__` (project.py lines 103-115): internal id, name,
extension-schema source and the topic list element-wise. -/
def Project.eqPy (a b : Project) : Bool :=
  a.id == b.id &&
  a._name.value.pyEq b._name.value &&
  a._extSchemaSrc.value.pyEq b._extSchemaSrc.value &&
  listEqPy Markup.eqPy a.topicList b.topicList

/-- Modelled from the spec: `searchObject` of the rdwr primitive wrappers
(absent from src/): every model entity composes `Identifiable`, and search
"compares by this id"; a wrapper has no searchable members, so it returns
itself on an id match and `None` otherwise. -/
def SimpleElement.searchObject (e : SimpleElement) (i : Nat) : Option Node :=
  if e.id = i then some (.selem e) else none

/-- Modelled from the spec: `searchObject` of the `Attribute` wrapper, as for
`SimpleElement`. -/
def Attribute.searchObject (a : Attribute) (i : Nat) : Option Node :=
  if a.id = i then some (.attr a) else none

/-- Modelled from the spec: `Viewpoint.searchObject` (`rdwr/viewpoint.py`,
absent from src/): the viewpoint's own id is compared; its camera and
visibility contents are external-collaborator data with no model ids. -/
def Viewpoint.searchObject (v : Viewpoint) (i : Nat) : Option Node :=
  if v.id = i then some (.viewpoint v) else none

/-- Modelled from the spec: `searchListObject` of `rdwr/project.py` (absent
from src/, imported by both `topic.py` and `markup.py`): search every list
member in order and return the first internal-id match, or `None`. -/
def searchListWith (f : α → Nat → Option Node) (l : List α) (i : Nat) :
    Option Node :=
  match l with
  | [] => none
  | x :: xs => (f x i).or (searchListWith f xs i)

/-- `DocumentReference.searchObject` (topic.py lines 147-159): own id first,
then the members `[_guid, _external, _reference, _description]`. -/
def DocumentReference.searchObject (d : DocumentReference) (i : Nat) :
    Option Node :=
  if d.id = i then some (.docRef d) else
    (d._guid.searchObject i).or ((d._external.searchObject i).or
      ((d._reference.searchObject i).or (d._description.searchObject i)))

/-- `BimSnippet.searchObject` (topic.py lines 276-288): own id first, then
`[_type, _external, _reference, _schema]`. -/
def BimSnippet.searchObject (b : BimSnippet) (i : Nat) : Option Node :=
  if b.id = i then some (.bimSnippet b) else
    (b._type.searchObject i).or ((b._external.searchObject i).or
      ((b._reference.searchObject i).or (b._schema.searchObject i)))

/-- `Topic.searchObject` (topic.py lines 674-707): own id, then the members
`[_title, _date, _author, _type, _status, _priority, _index, _modDate,
_modAuthor, _dueDate, _assignee, _description, _stage, bimSnippet]`
(`searchListObject` skips the `None` bim snippet), then the four lists
`referenceLinks`, `docRefs`, `labels`, `relatedTopics` in that order — the
raw strings/UUIDs held by the three `SimpleList`s carry no internal id and
can never match. -/
def Topic.searchObject (t : Topic) (i : Nat) : Option Node :=
  if t.id = i then some (.topic t) else
    ((t._title.searchObject i).or ((t._date.searchObject i).or
      ((t._author.searchObject i).or ((t._type.searchObject i).or
        ((t._status.searchObject i).or ((t._priority.searchObject i).or
          ((t._index.searchObject i).or ((t._modDate.searchObject i).or
            ((t._modAuthor.searchObject i).or ((t._dueDate.searchObject i).or
              ((t._assignee.searchObject i).or
                ((t._description.searchObject i).or
                  ((t._stage.searchObject i).or
                    (match t.bimSnippet with
                     | some b => b.searchObject i
                     | none => none)))))))))))))).or
      (searchListWith DocumentReference.searchObject t.docRefs i)

/-- `HeaderFile.searchObject` (markup.py lines 251-263): own id, then
`[_ifcProjectId, _ifcSpatialStructureElement, _external, _filename, _time,
_reference]`. -/
def HeaderFile.searchObject (f : HeaderFile) (i : Nat) : Option Node :=
  if f.id = i then some (.headerFile f) else
    (f._ifcProjectId.searchObject i).or
      ((f._ifcSpatialStructureElement.searchObject i).or
        ((f._external.searchObject i).or ((f._filename.searchObject i).or
          ((f._time.searchObject i).or (f._reference.searchObject i)))))

/-- `Header.searchObject` (markup.py lines 313-323): own id, then the
files. -/
def Header.searchObject (h : Header) (i : Nat) : Option Node :=
  if h.id = i then some (.header h) else
    searchListWith HeaderFile.searchObject h.files i

/-- `ViewpointReference.searchObject` (markup.py lines 528-540): own id,
then `[_file, _snapshot, _index, _viewpoint]` (the `None` viewpoint is
skipped). -/
def ViewpointReference.searchObject (v : ViewpointReference) (i : Nat) :
    Option Node :=
  if v.id = i then some (.vpRef v) else
    (v._file.searchObject i).or ((v._snapshot.searchObject i).or
      ((v._index.searchObject i).or
        (match v._viewpoint with
         | some vp => vp.searchObject i
         | none => none)))

/-- `Comment.searchObject` (markup.py lines 748-761): own id, then
`[_comment, viewpoint, _date, _author, _modDate, _modAuthor]` (the `None`
viewpoint is skipped). -/
def Comment.searchObject (c : Comment) (i : Nat) : Option Node :=
  if c.id = i then some (.comment c) else
    (c._comment.searchObject i).or
      (((match c.viewpoint with
         | some vp => vp.searchObject i
         | none => none)).or
        ((c._date.searchObject i).or ((c._author.searchObject i).or
          ((c._modDate.searchObject i).or (c._modAuthor.searchObject i)))))

/-- `Markup.searchObject` (markup.py lines 945-967): own id, then the
members `[header, topic]`, then the comments, then the viewpoint
references. -/
def Markup.searchObject (m : Markup) (i : Nat) : Option Node :=
  if m.id = i then some (.markup m) else
    ((match m.header with
      | some h => h.searchObject i
      | none => none).or
     (match m.topic with
      | some t => t.searchObject i
      | none => none)).or
      ((searchListWith Comment.searchObject m.comments i).or
        (searchListWith ViewpointReference.searchObject m.viewpoints i))

/-- Modelled from the spec: `Project.searchObject` (`rdwr/project.py`,
absent from src/): per spec §4.6 it "delegates to member Markups in order,
short-circuiting on first match", and — following the uniform pattern of
every `searchObject` in src/ — it first compares its own internal id and its
primitive wrappers `_name` and `_extSchemaSrc`. -/
def Project.searchObject (p : Project) (i : Nat) : Option Node :=
  if p.id = i then some (.project p) else
    (p._name.searchObject i).or ((p._extSchemaSrc.searchObject i).or
      (searchListWith Markup.searchObject p.topicList i))

/-- The nodes of a wrapper subtree, in `searchObject` visit order. -/
def SimpleElement.reach (e : SimpleElement) : List Node := [.selem e]

/-- The nodes of an `Attribute` subtree. -/
def Attribute.reach (a : Attribute) : List Node := [.attr a]

/-- The nodes of a `Viewpoint` subtree. -/
def Viewpoint.reach (v : Viewpoint) : List Node := [.viewpoint v]

/-- The nodes of a `DocumentReference` subtree, in visit order. -/
def DocumentReference.reach (d : DocumentReference) : List Node :=
  .docRef d :: (d._guid.reach ++ d._external.reach ++ d._reference.reach ++
    d._description.reach)

/-- The nodes of a `BimSnippet` subtree, in visit order. -/
def BimSnippet.reach (b : BimSnippet) : List Node :=
  .bimSnippet b :: (b._type.reach ++ b._external.reach ++ b._reference.reach ++
    b._schema.reach)

/-- The nodes of a `Topic` subtree, in visit order. -/
def Topic.reach (t : Topic) : List Node :=
  .topic t :: (t._title.reach ++ t._date.reach ++ t._author.reach ++
    t._type.reach ++ t._status.reach ++ t._priority.reach ++ t._index.reach ++
    t._modDate.reach ++ t._modAuthor.reach ++ t._dueDate.reach ++
    t._assignee.reach ++ t._description.reach ++ t._stage.reach ++
    (match t.bimSnippet with
     | some b => b.reach
     | none => []) ++
    (t.docRefs.map DocumentReference.reach).flatten)

/-- The nodes of a `HeaderFile` subtree, in visit order. -/
def HeaderFile.reach (f : HeaderFile) : List Node :=
  .headerFile f :: (f._ifcProjectId.reach ++
    f._ifcSpatialStructureElement.reach ++ f._external.reach ++
    f._filename.reach ++ f._time.reach ++ f._reference.reach)

/-- The nodes of a `Header` subtree, in visit order. -/
def Header.reach (h : Header) : List Node :=
  .header h :: (h.files.map HeaderFile.reach).flatten

/-- The nodes of a `ViewpointReference` subtree, in visit order. -/
def ViewpointReference.reach (v : ViewpointReference) : List Node :=
  .vpRef v :: (v._file.reach ++ v._snapshot.reach ++ v._index.reach ++
    (match v._viewpoint with
     | some vp => vp.reach
     | none => []))

/-- The nodes of a `Comment` subtree, in visit order. -/
def Comment.reach (c : Comment) : List Node :=
  .comment c :: (c._comment.reach ++
    (match c.viewpoint with
     | some vp => vp.reach
     | none => []) ++
    c._date.reach ++ c._author.reach ++ c._modDate.reach ++ c._modAuthor.reach)

/-- The nodes of a `Markup` subtree, in visit order. -/
def Markup.reach (m : Markup) : List Node :=
  .markup m :: ((match m.header with
     | some h => h.reach
     | none => []) ++
    (match m.topic with
     | some t => t.reach
     | none => []) ++
    (m.comments.map Comment.reach).flatten ++
    (m.viewpoints.map ViewpointReference.reach).flatten)

/-- The nodes of a whole project graph, in visit order. -/
def Project.reach (p : Project) : List Node :=
  .project p :: (p._name.reach ++ p._extSchemaSrc.reach ++
    (p.topicList.map Markup.reach).flatten)

/-- Sequential deep copy of a Python list: each element is copied in order,
threading the allocation counter. -/
def deepcopyList (f : α → Nat → α × Nat) : List α → Nat → List α × Nat
  | [], c => ([], c)
  | x :: xs, c =>
    let (y, c1) := f x c
    let (ys, c2) := deepcopyList f xs c1
    (y :: ys, c2)

/-- Default (`copy.deepcopy`) copy of a primitive wrapper: a fresh object
with the same attribute values; the internal id is an immutable value and is
therefore preserved.  The parent back-reference is re-mapped by the copying
parent (every `__deepcopy__` in src/ re-stamps its members with
`listSetContainingElement`), so it is left untouched here. -/
def SimpleElement.deepcopy (e : SimpleElement) (c : Nat) :
    SimpleElement × Nat :=
  ({ e with tok := c }, c + 1)

/-- Default copy of an `Attribute` wrapper, as for `SimpleElement`. -/
def Attribute.deepcopy (a : Attribute) (c : Nat) : Attribute × Nat :=
  ({ a with tok := c }, c + 1)

/-- Default copy of a `SimpleList`: fresh object, same items. -/
def SimpleListV.deepcopy (l : SimpleListV) (c : Nat) : SimpleListV × Nat :=
  ({ l with tok := c }, c + 1)

/-- Modelled from the spec: deep copy of a `Viewpoint`
(`rdwr/viewpoint.py`, absent from src/): fresh object, id preserved; the
back-reference is re-stamped by the copying `ViewpointReference`. -/
def Viewpoint.deepcopy (v : Viewpoint) (c : Nat) : Viewpoint × Nat :=
  ({ v with tok := c }, c + 1)

/-- Default (`copy.deepcopy`) copy of a `DocumentReference` (`topic.py`
defines no `__deepcopy__` for it): fresh objects throughout, ids preserved,
and the wrappers' back-references mapped to the copy (the memo maps every
internal edge of the copied subtree). -/
def DocumentReference.deepcopy (d : DocumentReference) (c : Nat) :
    DocumentReference × Nat :=
  let tok := c
  let (g, c1) := d._guid.deepcopy (c + 1)
  let (e, c2) := d._external.deepcopy c1
  let (r, c3) := d._reference.deepcopy c2
  let (de, c4) := d._description.deepcopy c3
  ({ d with
      tok := tok,
      _guid := { g with containingObject := some tok },
      _external := { e with containingObject := some tok },
      _reference := { r with containingObject := some tok },
      _description := { de with containingObject := some tok } }, c4)

/-- Default copy of a `BimSnippet`, as for `DocumentReference`. -/
def BimSnippet.deepcopy (b : BimSnippet) (c : Nat) : BimSnippet × Nat :=
  let tok := c
  let (t, c1) := b._type.deepcopy (c + 1)
  let (e, c2) := b._external.deepcopy c1
  let (r, c3) := b._reference.deepcopy c2
  let (s, c4) := b._schema.deepcopy c3
  ({ b with
      tok := tok,
      _type := { t with containingObject := some tok },
      _external := { e with containingObject := some tok },
      _reference := { r with containingObject := some tok },
      _schema := { s with containingObject := some tok } }, c4)

/-- Modelled from the spec: deep copy of a `Topic` (`rdwr/topic.py`, absent
from src/): per the spec's deep-copy contract the whole value is
reconstructed independent of any parent (the copy's `containingObject` is
`None` until re-parented, every member's back-reference is re-stamped to the
copy) and the internal id is preserved (identity search across deep
copies). -/
def Topic.deepcopy (t : Topic) (c : Nat) : Topic × Nat :=
  let tok := c
  let (ti, c1) := t._title.deepcopy (c + 1)
  let (da, c2) := t._date.deepcopy c1
  let (au, c3) := t._author.deepcopy c2
  let (ty, c4) := t._type.deepcopy c3
  let (sta, c5) := t._status.deepcopy c4
  let (rl, c6) := t.referenceLinks.deepcopy c5
  let (dr, c7) := deepcopyList DocumentReference.deepcopy t.docRefs c6
  let (pr, c8) := t._priority.deepcopy c7
  let (ix, c9) := t._index.deepcopy c8
  let (lb, c10) := t.labels.deepcopy c9
  let (md, c11) := t._modDate.deepcopy c10
  let (ma, c12) := t._modAuthor.deepcopy c11
  let (dd, c13) := t._dueDate.deepcopy c12
  let (asg, c14) := t._assignee.deepcopy c13
  let (de, c15) := t._description.deepcopy c14
  let (stg, c16) := t._stage.deepcopy c15
  let (rt, c17) := t.relatedTopics.deepcopy c16
  let (bs, c18) := match t.bimSnippet with
    | some b =>
      let (b2, c') := b.deepcopy c17
      (some b2, c')
    | none => (none, c17)
  ({ t with
      tok := tok,
      containingObject := none,
      _title := { ti with containingObject := some tok },
      _date := { da with containingObject := some tok },
      _author := { au with containingObject := some tok },
      _type := { ty with containingObject := some tok },
      _status := { sta with containingObject := some tok },
      referenceLinks := { rl with containingObject := some tok },
      docRefs := dr.map (fun d => { d with containingObject := some tok }),
      _priority := { pr with containingObject := some tok },
      _index := { ix with containingObject := some tok },
      labels := { lb with containingObject := some tok },
      _modDate := { md with containingObject := some tok },
      _modAuthor := { ma with containingObject := some tok },
      _dueDate := { dd with containingObject := some tok },
      _assignee := { asg with containingObject := some tok },
      _description := { de with containingObject := some tok },
      _stage := { stg with containingObject := some tok },
      relatedTopics := { rt with containingObject := some tok },
      bimSnippet := bs.map
        (fun b => { b with containingObject := some tok }) }, c18)

/-- `HeaderFile.__deepcopy__` (markup.py lines 78-105): copy the six
wrappers, build a default `HeaderFile()`, overwrite its members with the
copies, keep the state, restore the internal id, and re-stamp the members'
back-references to the copy with `listSetContainingElement`; the copy's own
`containingObject` is the fresh object's `None`. -/
def HeaderFile.deepcopy (f : HeaderFile) (c : Nat) : HeaderFile × Nat :=
  let cpyid := f.id
  let (cpyIfcProjectId, c1) := f._ifcProjectId.deepcopy c
  let (cpyIfcSpatStrEl, c2) := f._ifcSpatialStructureElement.deepcopy c1
  let (cpyIsExternal, c3) := f._external.deepcopy c2
  let (cpyfilename, c4) := f._filename.deepcopy c3
  let (cpytime, c5) := f._time.deepcopy c4
  let (cpyreference, c6) := f._reference.deepcopy c5
  let (cpy0, c7) := HeaderFile.init c6 (Val.vstr "") (Val.vstr "")
    (Val.vbool true) (Val.vstr "") Val.vnone (Val.vstr "") TState.original none
  let tok := cpy0.tok
  ({ cpy0 with
      state := f.state,
      _ifcProjectId := { cpyIfcProjectId with containingObject := some tok },
      _ifcSpatialStructureElement :=
        { cpyIfcSpatStrEl with containingObject := some tok },
      _external := { cpyIsExternal with containingObject := some tok },
      _filename := { cpyfilename with containingObject := some tok },
      _time := { cpytime with containingObject := some tok },
      _reference := { cpyreference with containingObject := some tok },
      id := cpyid }, c7)

/-- `Header.__deepcopy__` (markup.py lines 287-298): `Header(deepcopy(
self.files))` — the constructor re-stamps every copied file to the copy —
then restore id and state. -/
def Header.deepcopy (h : Header) (c : Nat) : Header × Nat :=
  let cpyid := h.id
  let (cpyfiles, c1) := deepcopyList HeaderFile.deepcopy h.files c
  let (cpy0, c2) := Header.init c1 cpyfiles none TState.original
  ({ cpy0 with id := cpyid, state := h.state }, c2)

/-- `ViewpointReference.__deepcopy__` (markup.py lines 379-402): copy the
wrappers and the embedded viewpoint, build `ViewpointReference(cpyxmlid)`,
overwrite its members with the copies (the `viewpoint` property setter
re-stamps the viewpoint), restore id and state, and re-stamp the members
with `listSetContainingElement`. -/
def ViewpointReference.deepcopy (v : ViewpointReference) (c : Nat) :
    ViewpointReference × Nat :=
  let cpyid := v.id
  let cpyxmlid := v.xmlId
  let (cpyfile, c1) := v._file.deepcopy c
  let (cpysnapshot, c2) := v._snapshot.deepcopy c1
  let (cpyindex, c3) := v._index.deepcopy c2
  let (cpyviewpoint, c4) := match v._viewpoint with
    | some vp =>
      let (vp2, c') := vp.deepcopy c3
      (some vp2, c')
    | none => (none, c3)
  let (cpy0, c5) := ViewpointReference.init c4 cpyxmlid Val.vnone Val.vnone
    (Val.vint (-1)) none TState.original
  let tok := cpy0.tok
  let cpy1 := { cpy0 with
      state := v.state,
      _file := { cpyfile with containingObject := some tok },
      _snapshot := { cpysnapshot with containingObject := some tok },
      _index := { cpyindex with containingObject := some tok },
      id := cpyid }
  let cpy2 := cpy1.setViewpoint cpyviewpoint
  ({ cpy2 with
      _viewpoint := cpy2._viewpoint.map
        (fun vp => { vp with containingObject := some tok }) }, c5)

/-- `Comment.__deepcopy__` (markup.py lines 575-605): copy the wrappers and
the referenced viewpoint, build `Comment(cpyguid, None, None, None)`,
overwrite its members with the copies (`cpy.viewpoint` is a plain attribute
assignment), restore id and state, and re-stamp the wrappers — and the
viewpoint, when present — with `listSetContainingElement`. -/
def Comment.deepcopy (cm : Comment) (c : Nat) : Comment × Nat :=
  let cpyid := cm.id
  let cpyguid := cm.xmlId
  let (cpycomment, c1) := cm._comment.deepcopy c
  let (cpyviewpoint, c2) := match cm.viewpoint with
    | some vp =>
      let (vp2, c') := vp.deepcopy c1
      (some vp2, c')
    | none => (none, c1)
  let (cpydate, c3) := cm._date.deepcopy c2
  let (cpyauthor, c4) := cm._author.deepcopy c3
  let (cpymoddate, c5) := cm._modDate.deepcopy c4
  let (cpymodauthor, c6) := cm._modAuthor.deepcopy c5
  let (cpy0, c7) := Comment.init c6 cpyguid Val.vnone Val.vnone Val.vnone
    none Val.vnone Val.vnone none TState.original
  let tok := cpy0.tok
  ({ cpy0 with
      _comment := { cpycomment with containingObject := some tok },
      _date := { cpydate with containingObject := some tok },
      _author := { cpyauthor with containingObject := some tok },
      _modDate := { cpymoddate with containingObject := some tok },
      _modAuthor := { cpymodauthor with containingObject := some tok },
      viewpoint := cpyviewpoint.map
        (fun vp => { vp with containingObject := some tok }),
      id := cpyid, state := cm.state }, c7)

/-- `Markup.__deepcopy__` (markup.py lines 799-818): copy topic, header,
comments and viewpoints, build `Markup(cpytopic, cpyheader, cpycomments,
cpyviewpoints)` — the constructor already re-stamps every member — restore
id and state, and re-stamp the comments, viewpoints, topic and header again
with `listSetContainingElement`.  `snapshotFiles` is not passed on and
defaults to `[]`; the copy's own `containingObject` is the fresh object's
`None`. -/
def Markup.deepcopy (m : Markup) (c : Nat) : Markup × Nat :=
  let cpyid := m.id
  let (cpytopic, c1) := match m.topic with
    | some t =>
      let (t2, c') := t.deepcopy c
      (some t2, c')
    | none => (none, c)
  let (cpyheader, c2) := match m.header with
    | some h =>
      let (h2, c') := h.deepcopy c1
      (some h2, c')
    | none => (none, c1)
  let (cpycomments, c3) := deepcopyList Comment.deepcopy m.comments c2
  let (cpyviewpoints, c4) := deepcopyList ViewpointReference.deepcopy
    m.viewpoints c3
  let (cpy0, c5) := Markup.init c4 cpytopic cpyheader cpycomments
    cpyviewpoints [] none TState.original
  let tok := cpy0.tok
  ({ cpy0 with
      id := cpyid, state := m.state,
      comments := cpy0.comments.map
        (fun x => { x with containingObject := some tok }),
      viewpoints := cpy0.viewpoints.map
        (fun x => { x with containingObject := some tok }),
      topic := cpy0.topic.map
        (fun x => { x with containingObject := some tok }),
      header := cpy0.header.map
        (fun x => { x with containingObject := some tok }) }, c5)

/-- Modelled from the spec: deep copy of a `Project` (`rdwr/project.py`,
absent from src/): the whole-graph snapshot taken before every mutating
operation — fresh objects throughout, internal ids preserved, member
markups re-parented to the copy, the root's `containingObject` stays
`None`. -/
def Project.deepcopy (p : Project) (c : Nat) : Project × Nat :=
  let tok := c
  let (n, c1) := p._name.deepcopy (c + 1)
  let (e, c2) := p._extSchemaSrc.deepcopy c1
  let (ms, c3) := deepcopyList Markup.deepcopy p.topicList c2
  ({ p with
      tok := tok,
      _name := { n with containingObject := some tok },
      _extSchemaSrc := { e with containingObject := some tok },
      topicList := ms.map
        (fun m => { m with containingObject := some tok }) }, c3)

/-- Deep copy of an arbitrary model node, dispatching to the class's
`__deepcopy__` (or the default copy where the class defines none). -/
def Node.deepcopy (n : Node) (c : Nat) : Node × Nat :=
  match n with
  | .selem e => let (x, c') := e.deepcopy c; (.selem x, c')
  | .attr a => let (x, c') := a.deepcopy c; (.attr x, c')
  | .viewpoint v => let (x, c') := v.deepcopy c; (.viewpoint x, c')
  | .docRef d => let (x, c') := d.deepcopy c; (.docRef x, c')
  | .bimSnippet b => let (x, c') := b.deepcopy c; (.bimSnippet x, c')
  | .topic t => let (x, c') := t.deepcopy c; (.topic x, c')
  | .headerFile f => let (x, c') := f.deepcopy c; (.headerFile x, c')
  | .header h => let (x, c') := h.deepcopy c; (.header x, c')
  | .vpRef v => let (x, c') := v.deepcopy c; (.vpRef x, c')
  | .comment cm => let (x, c') := cm.deepcopy c; (.comment x, c')
  | .markup m => let (x, c') := m.deepcopy c; (.markup x, c')
  | .project p => let (x, c') := p.deepcopy c; (.project x, c')

/-- The object tokens of a wrapper. -/
def SimpleElement.toks (e : SimpleElement) : List Nat := [e.tok]

/-- The object tokens of an `Attribute`. -/
def Attribute.toks (a : Attribute) : List Nat := [a.tok]

/-- The object tokens of a `SimpleList`. -/
def SimpleListV.toks (l : SimpleListV) : List Nat := [l.tok]

/-- The object tokens of a `Viewpoint`. -/
def Viewpoint.toks (v : Viewpoint) : List Nat := [v.tok]

/-- The object tokens of a `DocumentReference` subtree. -/
def DocumentReference.toks (d : DocumentReference) : List Nat :=
  d.tok :: (d._guid.toks ++ d._external.toks ++ d._reference.toks ++
    d._description.toks)

/-- The object tokens of a `BimSnippet` subtree. -/
def BimSnippet.toks (b : BimSnippet) : List Nat :=
  b.tok :: (b._type.toks ++ b._external.toks ++ b._reference.toks ++
    b._schema.toks)

/-- The object tokens of a `Topic` subtree. -/
def Topic.toks (t : Topic) : List Nat :=
  t.tok :: (t._title.toks ++ t._date.toks ++ t._author.toks ++
    t._type.toks ++ t._status.toks ++ t.referenceLinks.toks ++
    (t.docRefs.map DocumentReference.toks).flatten ++ t._priority.toks ++
    t._index.toks ++ t.labels.toks ++ t._modDate.toks ++ t._modAuthor.toks ++
    t._dueDate.toks ++ t._assignee.toks ++ t._description.toks ++
    t._stage.toks ++ t.relatedTopics.toks ++
    (match t.bimSnippet with
     | some b => b.toks
     | none => []))

/-- The object tokens of a `HeaderFile` subtree. -/
def HeaderFile.toks (f : HeaderFile) : List Nat :=
  f.tok :: (f._ifcProjectId.toks ++ f._ifcSpatialStructureElement.toks ++
    f._external.toks ++ f._filename.toks ++ f._time.toks ++
    f._reference.toks)

/-- The object tokens of a `Header` subtree. -/
def Header.toks (h : Header) : List Nat :=
  h.tok :: (h.files.map HeaderFile.toks).flatten

/-- The object tokens of a `ViewpointReference` subtree. -/
def ViewpointReference.toks (v : ViewpointReference) : List Nat :=
  v.tok :: (v._file.toks ++ v._snapshot.toks ++ v._index.toks ++
    (match v._viewpoint with
     | some vp => vp.toks
     | none => []))

/-- The object tokens of a `Comment` subtree. -/
def Comment.toks (cm : Comment) : List Nat :=
  cm.tok :: (cm._comment.toks ++
    (match cm.viewpoint with
     | some vp => vp.toks
     | none => []) ++
    cm._date.toks ++ cm._author.toks ++ cm._modDate.toks ++
    cm._modAuthor.toks)

/-- The object tokens of a `Markup` subtree. -/
def Markup.toks (m : Markup) : List Nat :=
  m.tok :: ((match m.header with
     | some h => h.toks
     | none => []) ++
    (match m.topic with
     | some t => t.toks
     | none => []) ++
    (m.comments.map Comment.toks).flatten ++
    (m.viewpoints.map ViewpointReference.toks).flatten)

/-- `OperationResults` of `programmaticInterface.py`. -/
inductive OperationResults where
  | SUCCESS
  | FAILURE
  deriving DecidableEq, Repr

/-- The module-global state of `programmaticInterface.py`: the live project
(`curProject`), the writer's pending-update queue
(`writer.projectUpdates`, modelled from the spec as a list of
(changed node, previous value) pairs), and the process allocation
counter. -/
structure PIState where
  curProject : Option Project
  projectUpdates : List (Node × Option Val)
  alloc : Nat

/-- Modelled from the spec: `writer.addProjectUpdate(project, changedNode,
previousValue)` (`rdwr/writer.py`, absent from src/): appends the pair to
the process-wide pending list, touching no disk. -/
def addProjectUpdate (st : PIState) (changedNode : Node)
    (previousValue : Option Val) : PIState :=
  { st with projectUpdates := st.projectUpdates ++ [(changedNode,
      previousValue)] }

/-- `_handleProjectUpdate(errMsg, backup)` (programmaticInterface.py lines
576-586).  `writer.processProjectUpdates()` is external; its report is the
`errorenousUpdate` argument (`None` on full success).  On failure the
function executes `curProject = backup` — but unlike `addComment` (line
523) it contains no `global curProject` declaration, so that assignment
creates a function-local binding and the module-global `curProject` keeps
whatever the caller mutated. -/
def handleProjectUpdate (st : PIState) (errMsg : String)
    (backup : Option Project) (errorenousUpdate : Option String) :
    OperationResults × PIState :=
  match errorenousUpdate with
  | some _ =>
    -- util.printErr(errMsg); util.printInfo(...)
    -- curProject = backup   <- binds a local name; the global is untouched
    let curProject := backup
    (OperationResults.FAILURE, st)
  | none => (OperationResults.SUCCESS, st)

/-- `addTopic` (programmaticInterface.py lines 471-510): deep-copy the
project as backup, check a project is open, build a new `ADDED` markup,
append it to `curProject.topicList`, build the new topic with the markup as
containing element, assign it to the (already appended) markup, enqueue the
markup as a project update and finish through `_handleProjectUpdate`.
`uuid4()` and the localized `datetime.now()` are external inputs (`guid`,
`creationDate`); the writer's report is `errorenousUpdate`. -/
def addTopic (st : PIState) (errorenousUpdate : Option String)
    (guid : String) (creationDate : Val) (title author : Val)
    (type description status priority index : Val) (labels : List Val)
    (dueDate assignee stage : Val) (relatedTopics referenceLinks : List Val)
    (bimSnippet : Option BimSnippet) : OperationResults × PIState :=
  let (projectBackup, c0) := match st.curProject with
    | some p =>
      let (b, c') := p.deepcopy st.alloc
      (some b, c')
    | none => (none, st.alloc)
  match st.curProject with
  | none =>
    -- isProjectOpen() fails
    (OperationResults.FAILURE, { st with alloc := c0 })
  | some cur =>
    -- newMarkup = Markup(None, state=State.States.ADDED,
    --                    containingElement=curProject)
    let (newMarkup, c1) := Markup.init c0 none none [] [] [] (some cur.tok)
      TState.added
    -- curProject.topicList.append(newMarkup) -- the list aliases the object,
    -- so the later `newMarkup.topic = newTopic` is visible through it
    let (newTopic, c2) := Topic.init c1 guid title creationDate author type
      status referenceLinks [] priority index labels Val.vnone (Val.vstr "")
      dueDate assignee description stage relatedTopics bimSnippet
      (some newMarkup.tok) TState.original
    let newMarkup1 := { newMarkup with topic := some newTopic }
    let cur1 := { cur with topicList := cur.topicList ++ [newMarkup1] }
    let st1 := { st with curProject := some cur1, alloc := c2 }
    let st2 := addProjectUpdate st1 (.markup newMarkup1) none
    handleProjectUpdate st2 "Could not add topic to project." projectBackup
      errorenousUpdate

/-- A sample creation datetime, 2019-08-16 10:00:00. -/
def dtSample : PyDateTime := ⟨2019, 8, 16, 10, 0, 0⟩

/-- A sample modification datetime, 2019-08-17 11:30:05. -/
def mdSample : PyDateTime := ⟨2019, 8, 17, 11, 30, 5⟩

/-- A document reference left entirely at its defaults — in particular its
`reference` is the default `None`. -/
def docRefC7 : DocumentReference :=
  (DocumentReference.init 0
    (Val.vuuid "00000000-0000-0000-0000-000000000000") (Val.vbool false)
    Val.vnone (Val.vstr "") none TState.original).1

/-- A concrete start point (1, 2, 3). -/
def pointA : Point := (Point.init 10 (Val.vint 1) (Val.vint 2) (Val.vint 3)
  none TState.original).1

/-- A concrete end point (4, 5, 6). -/
def pointB : Point := (Point.init 13 (Val.vint 4) (Val.vint 5) (Val.vint 6)
  none TState.original).1

/-- A line with both points present. -/
def lineC9 : Line := (Line.init 20 (some pointA) (some pointB) none
  TState.original).1

/-- A freshly added comment without a modification date. -/
def commentC8 : Comment :=
  (Comment.init 30 "c8-guid" (Val.vdate dtSample) (Val.vstr "a@b.com")
    (Val.vstr "Looks fine") none Val.vnone (Val.vstr "") none
    TState.added).1

/-- The same comment after a modification date was set. -/
def commentC8m : Comment :=
  { commentC8 with _modDate := { commentC8._modDate with
      value := Val.vdate mdSample } }

/-- A topic titled "Title A" (all other fields at their defaults). -/
def topicC2a : Topic :=
  (Topic.init 100 "topic-guid" (Val.vstr "Title A") (Val.vdate dtSample)
    (Val.vstr "a@b.com") (Val.vstr "") (Val.vstr "") [] [] (Val.vstr "")
    (Val.vint (-1)) [] Val.vnone (Val.vstr "") Val.vnone (Val.vstr "")
    (Val.vstr "") (Val.vstr "") [] none none TState.original).1

/-- The same topic except titled "Title B". -/
def topicC2b : Topic :=
  (Topic.init 100 "topic-guid" (Val.vstr "Title B") (Val.vdate dtSample)
    (Val.vstr "a@b.com") (Val.vstr "") (Val.vstr "") [] [] (Val.vstr "")
    (Val.vint (-1)) [] Val.vnone (Val.vstr "") Val.vnone (Val.vstr "")
    (Val.vstr "") (Val.vstr "") [] none none TState.original).1

/-- A markup holding `topicC2a`, no header, no comments, no viewpoints. -/
def markupC2a : Markup :=
  (Markup.init 200 (some topicC2a) none [] [] [] none TState.original).1

/-- A markup holding `topicC2b`. -/
def markupC2b : Markup :=
  (Markup.init 200 (some topicC2b) none [] [] [] none TState.original).1

/-- A project whose sole markup's topic is titled "Title A". -/
def projectC2a : Project :=
  { (Project.init 300 77 (Val.vstr "P") Val.vnone TState.original).1 with
    topicList := [markupC2a] }

/-- A project identical to `projectC2a` except its topic is titled
"Title B". -/
def projectC2b : Project :=
  { (Project.init 300 77 (Val.vstr "P") Val.vnone TState.original).1 with
    topicList := [markupC2b] }

/-- An open project with no topics yet. -/
def projC1 : Project :=
  (Project.init 40 7 (Val.vstr "P") Val.vnone TState.original).1

/-- The module state of `programmaticInterface.py` with `projC1` open and an
empty pending-update queue. -/
def piStateC1 : PIState :=
  { curProject := some projC1, projectUpdates := [], alloc := 1000 }

/-- Run `addTopic("New topic", "a@b.com")` on `piStateC1` while the writer
reports a failing update. -/
def addTopicC1 : OperationResults × PIState :=
  addTopic piStateC1 (some "disk full") "new-topic-guid" (Val.vdate dtSample)
    (Val.vstr "New topic") (Val.vstr "a@b.com") (Val.vstr "") (Val.vstr "")
    (Val.vstr "") (Val.vstr "") (Val.vint (-1)) [] Val.vnone (Val.vstr "")
    (Val.vstr "") [] [] none

/-- A comment living in `projectC5`'s markup. -/
def commentC5 : Comment :=
  (Comment.init 400 "c5-guid" (Val.vdate dtSample) (Val.vstr "a@b.com")
    (Val.vstr "hi") none Val.vnone (Val.vstr "") none TState.original).1

/-- A topic living in `projectC5`'s markup. -/
def topicC5 : Topic :=
  (Topic.init 420 "t5-guid" (Val.vstr "T5") (Val.vdate dtSample)
    (Val.vstr "a@b.com") (Val.vstr "") (Val.vstr "") [] [] (Val.vstr "")
    (Val.vint (-1)) [] Val.vnone (Val.vstr "") Val.vnone (Val.vstr "")
    (Val.vstr "") (Val.vstr "") [] none none TState.original).1

/-- The markup of `projectC5`. -/
def markupC5 : Markup :=
  (Markup.init 450 (some topicC5) none [commentC5] [] [] none
    TState.original).1

/-- A one-markup project used for the identity-search witness. -/
def projectC5 : Project :=
  { (Project.init 460 9 (Val.vstr "P5") Val.vnone TState.original).1 with
    topicList := [markupC5] }

/-- The live comment node inside `projectC5` (its `containingObject` was
re-stamped to the markup by `Markup.__init__`). -/
def nodeC5 : Node :=
  .comment { commentC5 with containingObject := some markupC5.tok }

/-- A file for the markup of the deep-copy witness. -/
def headerFileC6 : HeaderFile :=
  (HeaderFile.init 500 (Val.vstr "proj-id") (Val.vstr "sse-id")
    (Val.vbool true) (Val.vstr "model.ifc") Val.vnone (Val.vstr "m.ifc")
    TState.original none).1

/-- The header of the deep-copy witness markup. -/
def headerC6 : Header :=
  (Header.init 510 [headerFileC6] none TState.original).1

/-- A viewpoint reference of the deep-copy witness markup. -/
def vpRefC6 : ViewpointReference :=
  (ViewpointReference.init 520 "vp-guid" (Val.vuri "v.bcfv")
    (Val.vuri "s.png") (Val.vint 0) none TState.original).1

/-- A markup with topic, header, one comment and one viewpoint reference,
parented to token 900, used for the deep-copy witness. -/
def markupC6 : Markup :=
  { (Markup.init 530 (some topicC5) (some headerC6) [commentC5] [vpRefC6]
      ["snap.png"] none TState.original).1 with
    containingObject := some 900 }

/-- C10: for every Markup M, `getSnapshotFileList()` returns
`M.snapshotFiles` — the list supplied at construction — unchanged,
independent of the snapshot attributes of M's viewpoint references (the
list built from the viewpoints' snapshot fields does not influence the
returned value). -/
theorem C10_getSnapshotFileList_ignores_viewpoints (m : Markup) :
    m.getSnapshotFileList = m.snapshotFiles := rfl

/-- C4: for every typed property setter of a model entity (`Topic.title`,
`Project.name`, `Comment.comment`), assigning a new value writes that value
into the underlying primitive wrapper and flips the wrapper's state to
`MODIFIED` unless the wrapper's state is already `ADDED`. -/
theorem C4_setter_postcondition (t : Topic) (p : Project) (cm : Comment)
    (v : Val) :
    ((t.setTitle v)._title.value = v ∧
      (t.setTitle v)._title.state =
        (if t._title.state = TState.added then TState.added
         else TState.modified)) ∧
    ((p.setName v)._name.value = v ∧
      (p.setName v)._name.state =
        (if p._name.state = TState.added then TState.added
         else TState.modified)) ∧
    ((cm.setComment v)._comment.value = v ∧
      (cm.setComment v)._comment.state =
        (if cm._comment.state = TState.added then TState.added
         else TState.modified)) :=
  ⟨⟨rfl, rfl⟩, ⟨rfl, rfl⟩, ⟨rfl, rfl⟩⟩

/-- C3: `getStateList()` does not return a list for every well-formed
container: on every `Topic` and every `Comment` it raises `AttributeError`,
because `Topic.getStateList` reads `self.creation` (and later `self.refs`
and `self.lastModification`) and `Comment.getStateList` reads
`self.creation` and `self.lastModification`, none of which their `__init__`
ever sets. -/
theorem C3_getStateList_raises (t : Topic) (cm : Comment) :
    t.getStateList = Except.error "AttributeError: creation" ∧
    cm.getStateList = Except.error "AttributeError: creation" := by
  constructor <;> rfl

/-- C7: evaluated at a document reference whose `reference` equals its
declared default `None`, `getEtElement` still emits the
`ReferencedDocument` child (with text `"None"`), because the guard compares
`str(self.reference)` — a string — against the default `None` and is
therefore always true; the claim says the node is omitted. -/
theorem C7_referenced_document_emitted_at_default :
    docRefC7._reference.value = Val.vnone ∧
    docRefC7._reference.defaultValue = Val.vnone ∧
    docRefC7.getEtElement (XmlElem.fresh "DocumentReference") =
      XmlElem.node "DocumentReference" [] none
        [XmlElem.node "ReferencedDocument" [] (some "None") []] :=
  ⟨rfl, rfl, rfl⟩

/-- C9: evaluated at a line with both points present, `Line.getEtElement`
does not return an element with `StartPoint` and `StopPoint` children: after
serializing `start` it reads `self.stop`, an attribute `Line.__init__` never
sets (the member is named `end`), and raises `AttributeError`. -/
theorem C9_line_getEtElement_raises :
    lineC9.start.isSome = true ∧ lineC9.lineEnd.isSome = true ∧
    lineC9.getEtElement (XmlElem.fresh "Line") =
      Except.error "AttributeError: stop" :=
  ⟨rfl, rfl, rfl⟩

/-- C2: two projects agreeing on id, name and extension schema whose sole
markups hold topics differing in `title` ("Title A" vs "Title B")
nevertheless compare equal under `Project.__eq__`, because `Topic.__eq__`
returns an always-truthy 2-tuple (the `self.modAuthor, other.modAuthor`
comma); the claim says they compare unequal. -/
theorem C2_differing_titles_compare_equal :
    Project.eqPy projectC2a projectC2b = true ∧
    projectC2a.topicList.map (fun m => m.topic.map (fun t => t._title.value))
      = [some (Val.vstr "Title A")] ∧
    projectC2b.topicList.map (fun m => m.topic.map (fun t => t._title.value))
      = [some (Val.vstr "Title B")] := by
  refine ⟨?_, rfl, rfl⟩
  decide

/-- C1: evaluated at an open project with no topics and a writer that
reports a failing update, `addTopic` returns `FAILURE` but the live project
afterwards holds the appended markup — it is not deep-equal to the project
before the call (`Project.__eq__` also rejects it), because
`_handleProjectUpdate` assigns `curProject = backup` without a
`global curProject` declaration, so the rollback never reaches the
module-global. -/
theorem C1_failed_commit_leaves_mutation :
    addTopicC1.1 = OperationResults.FAILURE ∧
    piStateC1.curProject = some projC1 ∧
    projC1.topicList.length = 0 ∧
    (addTopicC1.2.curProject.map (fun p => p.topicList.length)) = some 1 ∧
    (addTopicC1.2.curProject.map (fun p => Project.eqPy p projC1)) =
      some false := by
  refine ⟨rfl, rfl, rfl, rfl, ?_⟩
  decide

/-- C8: for every comment with a creation date, `str(c)` is
`"{comment text} -- {author}, {creation date as YYYY-MM-DD HH:MM:SS}"`, and
`" modified on {modification date in the same format}"` is appended iff the
modification date differs from its default (`None`). -/
theorem C8_comment_str_format (c : Comment) (dt : PyDateTime)
    (hdate : c._date.value = Val.vdate dt)
    (hdef : c._modDate.defaultValue = Val.vnone) :
    (c._modDate.value = Val.vnone →
      c.pyStr = Except.ok (c._comment.value.pyStr ++ " -- " ++
        c._author.value.pyStr ++ ", " ++ dt.strftimeYmdX)) ∧
    (∀ md : PyDateTime, c._modDate.value = Val.vdate md →
      c.pyStr = Except.ok (c._comment.value.pyStr ++ " -- " ++
        c._author.value.pyStr ++ ", " ++ dt.strftimeYmdX ++
        " modified on " ++ md.strftimeYmdX)) := by
  constructor
  · intro hmod
    simp [Comment.pyStr, hdate, hmod, hdef, Val.pyEq]
    rfl
  · intro md hmod
    simp [Comment.pyStr, hdate, hmod, hdef, Val.pyEq]
    rfl

/-- Witness for C8 at two concrete comments: one without and one with a
modification date. -/
theorem C8_comment_str_format_witness :
    (commentC8._date.value = Val.vdate dtSample ∧
      commentC8.pyStr =
        Except.ok "Looks fine -- a@b.com, 2019-08-16 10:00:00") ∧
    (commentC8m._date.value = Val.vdate dtSample ∧
      commentC8m.pyStr = Except.ok
        ("Looks fine -- a@b.com, 2019-08-16 10:00:00" ++
          " modified on 2019-08-17 11:30:05")) := by
  refine ⟨⟨rfl, ?_⟩, ⟨rfl, ?_⟩⟩
  · have h := (C8_comment_str_format commentC8 dtSample rfl rfl).1 rfl
    rw [h]
    simp only [Except.ok.injEq]
    decide
  · have h := (C8_comment_str_format commentC8m dtSample rfl rfl).2
      mdSample rfl
    rw [h]
    simp only [Except.ok.injEq]
    decide

/-- The search predicate: the node's internal id matches the target. -/
def idMatches (i : Nat) : Node → Bool := fun n => n.id == i

/-- Wrapper search is `find?` over the wrapper's one-node subtree. -/
theorem selem_search_eq_find (e : SimpleElement) (i : Nat) :
    e.searchObject i = e.reach.find? (idMatches i) := by
  by_cases h : e.id = i <;>
    [skip; have hb : (e.id == i) = false := beq_eq_false_iff_ne.mpr h] <;>
    simp [SimpleElement.searchObject, SimpleElement.reach, idMatches,
      List.find?, Node.id, h] <;>
    simp [hb]

/-- `Attribute` search is `find?` over its one-node subtree. -/
theorem attr_search_eq_find (a : Attribute) (i : Nat) :
    a.searchObject i = a.reach.find? (idMatches i) := by
  by_cases h : a.id = i <;>
    [skip; have hb : (a.id == i) = false := beq_eq_false_iff_ne.mpr h] <;>
    simp [Attribute.searchObject, Attribute.reach, idMatches, List.find?,
      Node.id, h] <;>
    simp [hb]

/-- `Viewpoint` search is `find?` over its one-node subtree. -/
theorem viewpoint_search_eq_find (v : Viewpoint) (i : Nat) :
    v.searchObject i = v.reach.find? (idMatches i) := by
  by_cases h : v.id = i <;>
    [skip; have hb : (v.id == i) = false := beq_eq_false_iff_ne.mpr h] <;>
    simp [Viewpoint.searchObject, Viewpoint.reach, idMatches, List.find?,
      Node.id, h] <;>
    simp [hb]

/-- `searchListObject` is `find?` over the concatenation of the members'
subtrees, provided each member's search is. -/
theorem searchListWith_eq_find (f : α → Nat → Option Node) (r : α → List Node)
    (i : Nat) (l : List α)
    (h : ∀ x ∈ l, f x i = (r x).find? (idMatches i)) :
    searchListWith f l i = ((l.map r).flatten).find? (idMatches i) := by
  induction l with
  | nil => rfl
  | cons x xs ih =>
    simp only [searchListWith, List.map_cons, List.flatten_cons,
      List.find?_append]
    rw [h x (List.mem_cons_self x xs), ih (fun y hy => h y (List.mem_cons_of_mem x hy))]

/-- `DocumentReference` search is `find?` over its subtree in visit order. -/
theorem docRef_search_eq_find (d : DocumentReference) (i : Nat) :
    d.searchObject i = d.reach.find? (idMatches i) := by
  by_cases h : d.id = i
  · have hp : idMatches i (Node.docRef d) = true := by
      simp [idMatches, Node.id, h]
    simp [DocumentReference.searchObject, DocumentReference.reach, h,
      List.find?_cons_of_pos _ hp]
  · have hp : ¬ idMatches i (Node.docRef d) = true := by
      simp [idMatches, Node.id, h]
    simp [DocumentReference.searchObject, DocumentReference.reach, h,
      List.find?_cons_of_neg _ hp, List.find?_append,
      selem_search_eq_find, attr_search_eq_find]

/-- `BimSnippet` search is `find?` over its subtree in visit order. -/
theorem bimSnippet_search_eq_find (b : BimSnippet) (i : Nat) :
    b.searchObject i = b.reach.find? (idMatches i) := by
  by_cases h : b.id = i
  · have hp : idMatches i (Node.bimSnippet b) = true := by
      simp [idMatches, Node.id, h]
    simp [BimSnippet.searchObject, BimSnippet.reach, h,
      List.find?_cons_of_pos _ hp]
  · have hp : ¬ idMatches i (Node.bimSnippet b) = true := by
      simp [idMatches, Node.id, h]
    simp [BimSnippet.searchObject, BimSnippet.reach, h,
      List.find?_cons_of_neg _ hp, List.find?_append,
      selem_search_eq_find, attr_search_eq_find]

/-- `Topic` search is `find?` over its subtree in visit order. -/
theorem topic_search_eq_find (t : Topic) (i : Nat) :
    t.searchObject i = t.reach.find? (idMatches i) := by
  have hdr := searchListWith_eq_find DocumentReference.searchObject
    DocumentReference.reach i t.docRefs
    (fun x _ => docRef_search_eq_find x i)
  by_cases h : t.id = i
  · have hp : idMatches i (Node.topic t) = true := by
      simp [idMatches, Node.id, h]
    simp [Topic.searchObject, Topic.reach, h, List.find?_cons_of_pos _ hp]
  · have hp : ¬ idMatches i (Node.topic t) = true := by
      simp [idMatches, Node.id, h]
    cases hb : t.bimSnippet with
    | none =>
      simp [Topic.searchObject, Topic.reach, h, hb,
        List.find?_cons_of_neg _ hp, List.find?_append,
        selem_search_eq_find, attr_search_eq_find, hdr,
        Option.or_assoc]
    | some bs =>
      simp [Topic.searchObject, Topic.reach, h, hb,
        List.find?_cons_of_neg _ hp, List.find?_append,
        selem_search_eq_find, attr_search_eq_find,
        bimSnippet_search_eq_find, hdr, Option.or_assoc]

/-- `HeaderFile` search is `find?` over its subtree in visit order. -/
theorem headerFile_search_eq_find (f : HeaderFile) (i : Nat) :
    f.searchObject i = f.reach.find? (idMatches i) := by
  by_cases h : f.id = i
  · have hp : idMatches i (Node.headerFile f) = true := by
      simp [idMatches, Node.id, h]
    simp [HeaderFile.searchObject, HeaderFile.reach, h,
      List.find?_cons_of_pos _ hp]
  · have hp : ¬ idMatches i (Node.headerFile f) = true := by
      simp [idMatches, Node.id, h]
    simp [HeaderFile.searchObject, HeaderFile.reach, h,
      List.find?_cons_of_neg _ hp, List.find?_append,
      selem_search_eq_find, attr_search_eq_find]

/-- `Header` search is `find?` over its subtree in visit order. -/
theorem header_search_eq_find (hd : Header) (i : Nat) :
    hd.searchObject i = hd.reach.find? (idMatches i) := by
  have hfs := searchListWith_eq_find HeaderFile.searchObject HeaderFile.reach
    i hd.files (fun x _ => headerFile_search_eq_find x i)
  by_cases h : hd.id = i
  · have hp : idMatches i (Node.header hd) = true := by
      simp [idMatches, Node.id, h]
    simp [Header.searchObject, Header.reach, h, List.find?_cons_of_pos _ hp]
  · have hp : ¬ idMatches i (Node.header hd) = true := by
      simp [idMatches, Node.id, h]
    simp [Header.searchObject, Header.reach, h,
      List.find?_cons_of_neg _ hp, hfs]

/-- `ViewpointReference` search is `find?` over its subtree in visit
order. -/
theorem vpRef_search_eq_find (v : ViewpointReference) (i : Nat) :
    v.searchObject i = v.reach.find? (idMatches i) := by
  by_cases h : v.id = i
  · have hp : idMatches i (Node.vpRef v) = true := by
      simp [idMatches, Node.id, h]
    simp [ViewpointReference.searchObject, ViewpointReference.reach, h,
      List.find?_cons_of_pos _ hp]
  · have hp : ¬ idMatches i (Node.vpRef v) = true := by
      simp [idMatches, Node.id, h]
    cases hv : v._viewpoint with
    | none =>
      simp [ViewpointReference.searchObject, ViewpointReference.reach, h, hv,
        List.find?_cons_of_neg _ hp, List.find?_append,
        selem_search_eq_find]
    | some vp =>
      simp [ViewpointReference.searchObject, ViewpointReference.reach, h, hv,
        List.find?_cons_of_neg _ hp, List.find?_append,
        selem_search_eq_find, viewpoint_search_eq_find]

/-- `Comment` search is `find?` over its subtree in visit order. -/
theorem comment_search_eq_find (cm : Comment) (i : Nat) :
    cm.searchObject i = cm.reach.find? (idMatches i) := by
  by_cases h : cm.id = i
  · have hp : idMatches i (Node.comment cm) = true := by
      simp [idMatches, Node.id, h]
    simp [Comment.searchObject, Comment.reach, h,
      List.find?_cons_of_pos _ hp]
  · have hp : ¬ idMatches i (Node.comment cm) = true := by
      simp [idMatches, Node.id, h]
    cases hv : cm.viewpoint with
    | none =>
      simp [Comment.searchObject, Comment.reach, h, hv,
        List.find?_cons_of_neg _ hp, List.find?_append,
        selem_search_eq_find]
    | some vp =>
      simp [Comment.searchObject, Comment.reach, h, hv,
        List.find?_cons_of_neg _ hp, List.find?_append,
        selem_search_eq_find, vpRef_search_eq_find]

/-- `Markup` search is `find?` over its subtree in visit order. -/
theorem markup_search_eq_find (m : Markup) (i : Nat) :
    m.searchObject i = m.reach.find? (idMatches i) := by
  have hcs := searchListWith_eq_find Comment.searchObject Comment.reach i
    m.comments (fun x _ => comment_search_eq_find x i)
  have hvs := searchListWith_eq_find ViewpointReference.searchObject
    ViewpointReference.reach i m.viewpoints
    (fun x _ => vpRef_search_eq_find x i)
  by_cases h : m.id = i
  · have hp : idMatches i (Node.markup m) = true := by
      simp [idMatches, Node.id, h]
    simp [Markup.searchObject, Markup.reach, h, List.find?_cons_of_pos _ hp]
  · have hp : ¬ idMatches i (Node.markup m) = true := by
      simp [idMatches, Node.id, h]
    cases hh : m.header with
    | none =>
      cases ht : m.topic with
      | none =>
        simp [Markup.searchObject, Markup.reach, h, hh, ht,
          List.find?_cons_of_neg _ hp, List.find?_append, hcs, hvs]
      | some t =>
        simp [Markup.searchObject, Markup.reach, h, hh, ht,
          List.find?_cons_of_neg _ hp, List.find?_append, hcs, hvs,
          topic_search_eq_find]
    | some hd =>
      cases ht : m.topic with
      | none =>
        simp [Markup.searchObject, Markup.reach, h, hh, ht,
          List.find?_cons_of_neg _ hp, List.find?_append, hcs, hvs,
          header_search_eq_find]
      | some t =>
        simp [Markup.searchObject, Markup.reach, h, hh, ht,
          List.find?_cons_of_neg _ hp, List.find?_append, hcs, hvs,
          header_search_eq_find, topic_search_eq_find, Option.or_assoc]

/-- `Project` search is `find?` over the whole graph in visit order. -/
theorem project_search_eq_find (p : Project) (i : Nat) :
    p.searchObject i = p.reach.find? (idMatches i) := by
  have hms := searchListWith_eq_find Markup.searchObject Markup.reach i
    p.topicList (fun x _ => markup_search_eq_find x i)
  by_cases h : p.id = i
  · have hp : idMatches i (Node.project p) = true := by
      simp [idMatches, Node.id, h]
    simp [Project.searchObject, Project.reach, h,
      List.find?_cons_of_pos _ hp]
  · have hp : ¬ idMatches i (Node.project p) = true := by
      simp [idMatches, Node.id, h]
    simp [Project.searchObject, Project.reach, h,
      List.find?_cons_of_neg _ hp, List.find?_append,
      selem_search_eq_find, hms]

/-- Deep copy preserves the internal id of a wrapper. -/
theorem selem_deepcopy_id (e : SimpleElement) (c : Nat) :
    (e.deepcopy c).1.id = e.id := rfl

/-- Deep copy preserves the internal id of an `Attribute`. -/
theorem attr_deepcopy_id (a : Attribute) (c : Nat) :
    (a.deepcopy c).1.id = a.id := rfl

/-- Deep copy preserves the internal id of a `Viewpoint`. -/
theorem viewpoint_deepcopy_id (v : Viewpoint) (c : Nat) :
    (v.deepcopy c).1.id = v.id := rfl

/-- Deep copy preserves the internal id of a `DocumentReference`. -/
theorem docRef_deepcopy_id (d : DocumentReference) (c : Nat) :
    (d.deepcopy c).1.id = d.id := rfl

/-- Deep copy preserves the internal id of a `BimSnippet`. -/
theorem bimSnippet_deepcopy_id (b : BimSnippet) (c : Nat) :
    (b.deepcopy c).1.id = b.id := rfl

/-- Deep copy preserves the internal id of a `Topic`. -/
theorem topic_deepcopy_id (t : Topic) (c : Nat) :
    (t.deepcopy c).1.id = t.id := by
  unfold Topic.deepcopy
  repeat' split
  all_goals rfl

/-- Deep copy preserves the internal id of a `HeaderFile`. -/
theorem headerFile_deepcopy_id (f : HeaderFile) (c : Nat) :
    (f.deepcopy c).1.id = f.id := rfl

/-- Deep copy preserves the internal id of a `Header`. -/
theorem header_deepcopy_id (h : Header) (c : Nat) :
    (h.deepcopy c).1.id = h.id := by
  unfold Header.deepcopy
  repeat' split
  all_goals rfl

/-- Deep copy preserves the internal id of a `ViewpointReference`. -/
theorem vpRef_deepcopy_id (v : ViewpointReference) (c : Nat) :
    (v.deepcopy c).1.id = v.id := by
  unfold ViewpointReference.deepcopy ViewpointReference.setViewpoint
  repeat' split
  all_goals rfl

/-- Deep copy preserves the internal id of a `Comment`. -/
theorem comment_deepcopy_id (cm : Comment) (c : Nat) :
    (cm.deepcopy c).1.id = cm.id := by
  unfold Comment.deepcopy
  repeat' split
  all_goals rfl

/-- Deep copy preserves the internal id of a `Markup`. -/
theorem markup_deepcopy_id (m : Markup) (c : Nat) :
    (m.deepcopy c).1.id = m.id := by
  unfold Markup.deepcopy
  repeat' split
  all_goals rfl

/-- Deep copy preserves the internal id of a `Project`. -/
theorem project_deepcopy_id (p : Project) (c : Nat) :
    (p.deepcopy c).1.id = p.id := by
  unfold Project.deepcopy
  repeat' split
  all_goals rfl

/-- Deep copy preserves the internal id of every model node. -/
theorem node_deepcopy_id (n : Node) (c : Nat) :
    (n.deepcopy c).1.id = n.id := by
  cases n with
  | selem e => simpa [Node.deepcopy, Node.id] using selem_deepcopy_id e c
  | attr a => simpa [Node.deepcopy, Node.id] using attr_deepcopy_id a c
  | viewpoint v => simpa [Node.deepcopy, Node.id] using viewpoint_deepcopy_id v c
  | docRef d => simpa [Node.deepcopy, Node.id] using docRef_deepcopy_id d c
  | bimSnippet b => simpa [Node.deepcopy, Node.id] using bimSnippet_deepcopy_id b c
  | topic t => simpa [Node.deepcopy, Node.id] using topic_deepcopy_id t c
  | headerFile f => simpa [Node.deepcopy, Node.id] using headerFile_deepcopy_id f c
  | header h => simpa [Node.deepcopy, Node.id] using header_deepcopy_id h c
  | vpRef v => simpa [Node.deepcopy, Node.id] using vpRef_deepcopy_id v c
  | comment cm => simpa [Node.deepcopy, Node.id] using comment_deepcopy_id cm c
  | markup m => simpa [Node.deepcopy, Node.id] using markup_deepcopy_id m c
  | project p => simpa [Node.deepcopy, Node.id] using project_deepcopy_id p c

/-- C5: for every entity E reachable inside a project graph P, searching P
for a deep copy of E returns a live node of P whose internal id equals E's
internal id — not `None`, and found by id comparison alone, never by field
values. -/
theorem C5_identity_search (p : Project) (e : Node) (c : Nat)
    (he : e ∈ p.reach) :
    ∃ n : Node, p.searchObject ((e.deepcopy c).1.id) = some n ∧
      n.id = e.id ∧ n ∈ p.reach := by
  rw [node_deepcopy_id, project_search_eq_find]
  have hsome : (p.reach.find? (idMatches e.id)).isSome := by
    rw [List.find?_isSome]
    exact ⟨e, he, by simp [idMatches]⟩
  obtain ⟨n, hn⟩ := Option.isSome_iff_exists.mp hsome
  refine ⟨n, hn, ?_, List.mem_of_find?_eq_some hn⟩
  have hm := List.find?_some hn
  simpa [idMatches] using hm

/-- Witness for C5: the live comment of `projectC5` is found by searching
for a deep copy of it. -/
theorem C5_identity_search_witness :
    nodeC5 ∈ projectC5.reach ∧
    ∃ n : Node, projectC5.searchObject ((nodeC5.deepcopy 9000).1.id) =
        some n ∧ n.id = nodeC5.id ∧ n ∈ projectC5.reach :=
  ⟨by decide, C5_identity_search projectC5 nodeC5 9000 (by decide)⟩

/-- Re-stamping the parent back-reference does not change a
`DocumentReference` subtree's tokens. -/
theorem docRef_toks_restamp (d : DocumentReference)
    (z : Option Nat) : ({ d with containingObject := z }).toks = d.toks := rfl

/-- Re-stamping does not change a `Topic` subtree's tokens. -/
theorem topic_toks_restamp (t : Topic) (z : Option Nat) :
    ({ t with containingObject := z }).toks = t.toks := rfl

/-- Re-stamping does not change a `HeaderFile` subtree's tokens. -/
theorem headerFile_toks_restamp (f : HeaderFile) (z : Option Nat) :
    ({ f with containingObject := z }).toks = f.toks := rfl

/-- Re-stamping does not change a `Header` subtree's tokens. -/
theorem header_toks_restamp (h : Header) (z : Option Nat) :
    ({ h with containingObject := z }).toks = h.toks := rfl

/-- Re-stamping does not change a `ViewpointReference` subtree's tokens. -/
theorem vpRef_toks_restamp (v : ViewpointReference)
    (z : Option Nat) : ({ v with containingObject := z }).toks = v.toks := rfl

/-- Re-stamping does not change a `Comment` subtree's tokens. -/
theorem comment_toks_restamp (cm : Comment) (z : Option Nat) :
    ({ cm with containingObject := z }).toks = cm.toks := rfl

/-- All tokens allocated by a wrapper deep copy are at least the allocation
counter, which never decreases. -/
theorem selem_deepcopy_toks_bound (e : SimpleElement) (c : Nat) :
    (∀ tk ∈ (e.deepcopy c).1.toks, c ≤ tk) ∧ c ≤ (e.deepcopy c).2 := by
  simp [SimpleElement.deepcopy, SimpleElement.toks]

/-- Token bound for `Attribute` deep copies. -/
theorem attr_deepcopy_toks_bound (a : Attribute) (c : Nat) :
    (∀ tk ∈ (a.deepcopy c).1.toks, c ≤ tk) ∧ c ≤ (a.deepcopy c).2 := by
  simp [Attribute.deepcopy, Attribute.toks]

/-- Token bound for `SimpleList` deep copies. -/
theorem slist_deepcopy_toks_bound (l : SimpleListV) (c : Nat) :
    (∀ tk ∈ (l.deepcopy c).1.toks, c ≤ tk) ∧ c ≤ (l.deepcopy c).2 := by
  simp [SimpleListV.deepcopy, SimpleListV.toks]

/-- Token bound for `Viewpoint` deep copies. -/
theorem viewpoint_deepcopy_toks_bound (v : Viewpoint) (c : Nat) :
    (∀ tk ∈ (v.deepcopy c).1.toks, c ≤ tk) ∧ c ≤ (v.deepcopy c).2 := by
  simp [Viewpoint.deepcopy, Viewpoint.toks]

/-- Token bound for `DocumentReference` deep copies. -/
theorem docRef_deepcopy_toks_bound (d : DocumentReference)
    (c : Nat) :
    (∀ tk ∈ (d.deepcopy c).1.toks, c ≤ tk) ∧ c ≤ (d.deepcopy c).2 := by
  simp [DocumentReference.deepcopy, DocumentReference.toks,
    SimpleElement.deepcopy, Attribute.deepcopy, SimpleElement.toks,
    Attribute.toks]
  omega

/-- Token bound for `BimSnippet` deep copies. -/
theorem bimSnippet_deepcopy_toks_bound (b : BimSnippet) (c : Nat) :
    (∀ tk ∈ (b.deepcopy c).1.toks, c ≤ tk) ∧ c ≤ (b.deepcopy c).2 := by
  simp [BimSnippet.deepcopy, BimSnippet.toks, SimpleElement.deepcopy,
    Attribute.deepcopy, SimpleElement.toks, Attribute.toks]
  omega

/-- Token bound for sequential list deep copies, given one for the element
copy. -/
theorem deepcopyList_toks_bound (f : α → Nat → α × Nat) (tks : α → List Nat)
    (hf : ∀ x c, (∀ tk ∈ tks ((f x c).1), c ≤ tk) ∧ c ≤ (f x c).2)
    (l : List α) (c : Nat) :
    (∀ y ∈ (deepcopyList f l c).1, ∀ tk ∈ tks y, c ≤ tk) ∧
      c ≤ (deepcopyList f l c).2 := by
  induction l generalizing c with
  | nil => simp [deepcopyList]
  | cons x xs ih =>
    rcases hy : f x c with ⟨y, c1⟩
    rcases hys : deepcopyList f xs c1 with ⟨ys, c2⟩
    have hfx := hf x c
    rw [hy] at hfx
    have hihs := ih c1
    rw [hys] at hihs
    have hred : deepcopyList f (x :: xs) c = (y :: ys, c2) := by
      simp [deepcopyList, hy, hys]
    rw [hred]
    constructor
    · intro z hz tk htk
      rcases List.mem_cons.mp hz with hz | hz
      · subst hz
        exact hfx.1 tk htk
      · exact le_trans hfx.2 (hihs.1 z hz tk htk)
    · exact le_trans hfx.2 hihs.2

/-- Re-stamping does not change a wrapper's token list. -/
theorem selem_toks_restamp (e : SimpleElement) (z : Option Nat) :
    ({ e with containingObject := z }).toks = e.toks := rfl

/-- Re-stamping does not change an `Attribute`'s token list. -/
theorem attr_toks_restamp (a : Attribute) (z : Option Nat) :
    ({ a with containingObject := z }).toks = a.toks := rfl

/-- Re-stamping does not change a `SimpleList`'s token list. -/
theorem slist_toks_restamp (l : SimpleListV) (z : Option Nat) :
    ({ l with containingObject := z }).toks = l.toks := rfl

/-- Re-stamping does not change a `Viewpoint`'s token list. -/
theorem viewpoint_toks_restamp (v : Viewpoint) (z : Option Nat) :
    ({ v with containingObject := z }).toks = v.toks := rfl

/-- Re-stamping does not change a `BimSnippet` subtree's tokens. -/
theorem bimSnippet_toks_restamp (b : BimSnippet) (z : Option Nat) :
    ({ b with containingObject := z }).toks = b.toks := rfl

/-- Equation form of the wrapper token bound. -/
theorem selem_deepcopy_toks_bound' {e : SimpleElement} {c : Nat}
    {y : SimpleElement} {c' : Nat} (heq : e.deepcopy c = (y, c')) :
    (∀ tk ∈ y.toks, c ≤ tk) ∧ c ≤ c' := by
  have h := selem_deepcopy_toks_bound e c
  rw [heq] at h
  exact h

/-- Equation form of the `Attribute` token bound. -/
theorem attr_deepcopy_toks_bound' {a : Attribute} {c : Nat}
    {y : Attribute} {c' : Nat} (heq : a.deepcopy c = (y, c')) :
    (∀ tk ∈ y.toks, c ≤ tk) ∧ c ≤ c' := by
  have h := attr_deepcopy_toks_bound a c
  rw [heq] at h
  exact h

/-- Equation form of the `SimpleList` token bound. -/
theorem slist_deepcopy_toks_bound' {l : SimpleListV} {c : Nat}
    {y : SimpleListV} {c' : Nat} (heq : l.deepcopy c = (y, c')) :
    (∀ tk ∈ y.toks, c ≤ tk) ∧ c ≤ c' := by
  have h := slist_deepcopy_toks_bound l c
  rw [heq] at h
  exact h

/-- Equation form of the `Viewpoint` token bound. -/
theorem viewpoint_deepcopy_toks_bound' {v : Viewpoint} {c : Nat}
    {y : Viewpoint} {c' : Nat} (heq : v.deepcopy c = (y, c')) :
    (∀ tk ∈ y.toks, c ≤ tk) ∧ c ≤ c' := by
  have h := viewpoint_deepcopy_toks_bound v c
  rw [heq] at h
  exact h

/-- Equation form of the `DocumentReference` token bound. -/
theorem docRef_deepcopy_toks_bound' {d : DocumentReference}
    {c : Nat} {y : DocumentReference} {c' : Nat}
    (heq : d.deepcopy c = (y, c')) :
    (∀ tk ∈ y.toks, c ≤ tk) ∧ c ≤ c' := by
  have h := docRef_deepcopy_toks_bound d c
  rw [heq] at h
  exact h

/-- Equation form of the `BimSnippet` token bound. -/
theorem bimSnippet_deepcopy_toks_bound' {b : BimSnippet} {c : Nat}
    {y : BimSnippet} {c' : Nat} (heq : b.deepcopy c = (y, c')) :
    (∀ tk ∈ y.toks, c ≤ tk) ∧ c ≤ c' := by
  have h := bimSnippet_deepcopy_toks_bound b c
  rw [heq] at h
  exact h

/-- Equation form of the list token bound. -/
theorem deepcopyList_toks_bound' {f : α → Nat → α × Nat}
    {tks : α → List Nat}
    (hf : ∀ x c, (∀ tk ∈ tks ((f x c).1), c ≤ tk) ∧ c ≤ (f x c).2)
    {l : List α} {c : Nat} {ys : List α} {c' : Nat}
    (heq : deepcopyList f l c = (ys, c')) :
    (∀ y ∈ ys, ∀ tk ∈ tks y, c ≤ tk) ∧ c ≤ c' := by
  have h := deepcopyList_toks_bound f tks hf l c
  rw [heq] at h
  exact h

/-- Token bound for `Topic` deep copies. -/
theorem topic_deepcopy_toks_bound (t : Topic) (c : Nat) :
    (∀ tk ∈ (t.deepcopy c).1.toks, c ≤ tk) ∧ c ≤ (t.deepcopy c).2 := by
  rcases hti : t._title.deepcopy (c + 1) with ⟨ti, c1⟩
  rcases hda : t._date.deepcopy c1 with ⟨da, c2⟩
  rcases hau : t._author.deepcopy c2 with ⟨au, c3⟩
  rcases hty : t._type.deepcopy c3 with ⟨ty, c4⟩
  rcases hst : t._status.deepcopy c4 with ⟨sta, c5⟩
  rcases hrl : t.referenceLinks.deepcopy c5 with ⟨rl, c6⟩
  rcases hdr : deepcopyList DocumentReference.deepcopy t.docRefs c6 with
    ⟨dr, c7⟩
  rcases hpr : t._priority.deepcopy c7 with ⟨pr, c8⟩
  rcases hix : t._index.deepcopy c8 with ⟨ix, c9⟩
  rcases hlb : t.labels.deepcopy c9 with ⟨lb, c10⟩
  rcases hmd : t._modDate.deepcopy c10 with ⟨md, c11⟩
  rcases hma : t._modAuthor.deepcopy c11 with ⟨ma, c12⟩
  rcases hdd : t._dueDate.deepcopy c12 with ⟨dd, c13⟩
  rcases hasg : t._assignee.deepcopy c13 with ⟨asg, c14⟩
  rcases hde : t._description.deepcopy c14 with ⟨de, c15⟩
  rcases hstg : t._stage.deepcopy c15 with ⟨stg, c16⟩
  rcases hrt : t.relatedTopics.deepcopy c16 with ⟨rt, c17⟩
  obtain ⟨b1m, b1c⟩ := selem_deepcopy_toks_bound' hti
  obtain ⟨b2m, b2c⟩ := selem_deepcopy_toks_bound' hda
  obtain ⟨b3m, b3c⟩ := selem_deepcopy_toks_bound' hau
  obtain ⟨b4m, b4c⟩ := attr_deepcopy_toks_bound' hty
  obtain ⟨b5m, b5c⟩ := attr_deepcopy_toks_bound' hst
  obtain ⟨b6m, b6c⟩ := slist_deepcopy_toks_bound' hrl
  obtain ⟨b7m, b7c⟩ := deepcopyList_toks_bound'
    docRef_deepcopy_toks_bound hdr
  obtain ⟨b8m, b8c⟩ := selem_deepcopy_toks_bound' hpr
  obtain ⟨b9m, b9c⟩ := selem_deepcopy_toks_bound' hix
  obtain ⟨b10m, b10c⟩ := slist_deepcopy_toks_bound' hlb
  obtain ⟨b11m, b11c⟩ := selem_deepcopy_toks_bound' hmd
  obtain ⟨b12m, b12c⟩ := selem_deepcopy_toks_bound' hma
  obtain ⟨b13m, b13c⟩ := selem_deepcopy_toks_bound' hdd
  obtain ⟨b14m, b14c⟩ := selem_deepcopy_toks_bound' hasg
  obtain ⟨b15m, b15c⟩ := selem_deepcopy_toks_bound' hde
  obtain ⟨b16m, b16c⟩ := selem_deepcopy_toks_bound' hstg
  obtain ⟨b17m, b17c⟩ := slist_deepcopy_toks_bound' hrt
  cases hb : t.bimSnippet with
  | none =>
    unfold Topic.deepcopy
    simp only [hti, hda, hau, hty, hst, hrl, hdr, hpr, hix, hlb, hmd, hma,
      hdd, hasg, hde, hstg, hrt, hb]
    constructor
    · intro tk htk
      simp only [Topic.toks, selem_toks_restamp,
        attr_toks_restamp, slist_toks_restamp,
        docRef_toks_restamp, bimSnippet_toks_restamp,
        List.map_map, Function.comp, List.mem_cons, List.mem_append,
        List.mem_flatten, List.mem_map, List.append_nil, Option.map_none',
        or_assoc] at htk
      rcases htk with rfl | htk | htk | htk | htk | htk | htk |
        ⟨ts, ⟨y, hy, rfl⟩, htk⟩ | htk | htk | htk | htk | htk | htk | htk |
        htk | htk | htk
      · omega
      · exact le_trans (by omega) (b1m tk htk)
      · exact le_trans (by omega) (b2m tk htk)
      · exact le_trans (by omega) (b3m tk htk)
      · exact le_trans (by omega) (b4m tk htk)
      · exact le_trans (by omega) (b5m tk htk)
      · exact le_trans (by omega) (b6m tk htk)
      · exact le_trans (by omega) (b7m y hy tk htk)
      · exact le_trans (by omega) (b8m tk htk)
      · exact le_trans (by omega) (b9m tk htk)
      · exact le_trans (by omega) (b10m tk htk)
      · exact le_trans (by omega) (b11m tk htk)
      · exact le_trans (by omega) (b12m tk htk)
      · exact le_trans (by omega) (b13m tk htk)
      · exact le_trans (by omega) (b14m tk htk)
      · exact le_trans (by omega) (b15m tk htk)
      · exact le_trans (by omega) (b16m tk htk)
      · exact le_trans (by omega) (b17m tk htk)
    · omega
  | some bs =>
    unfold Topic.deepcopy
    simp only [hti, hda, hau, hty, hst, hrl, hdr, hpr, hix, hlb, hmd, hma,
      hdd, hasg, hde, hstg, hrt, hb]
    rcases hbs : bs.deepcopy c17 with ⟨bs2, c18⟩
    obtain ⟨b18m, b18c⟩ := bimSnippet_deepcopy_toks_bound' hbs
    simp only [hbs]
    constructor
    · intro tk htk
      simp only [Topic.toks, selem_toks_restamp,
        attr_toks_restamp, slist_toks_restamp,
        docRef_toks_restamp, bimSnippet_toks_restamp,
        List.map_map, Function.comp, List.mem_cons, List.mem_append,
        List.mem_flatten, List.mem_map, Option.map_some', or_assoc] at htk
      rcases htk with rfl | htk | htk | htk | htk | htk | htk |
        ⟨ts, ⟨y, hy, rfl⟩, htk⟩ | htk | htk | htk | htk | htk | htk | htk |
        htk | htk | htk | htk
      · omega
      · exact le_trans (by omega) (b1m tk htk)
      · exact le_trans (by omega) (b2m tk htk)
      · exact le_trans (by omega) (b3m tk htk)
      · exact le_trans (by omega) (b4m tk htk)
      · exact le_trans (by omega) (b5m tk htk)
      · exact le_trans (by omega) (b6m tk htk)
      · exact le_trans (by omega) (b7m y hy tk htk)
      · exact le_trans (by omega) (b8m tk htk)
      · exact le_trans (by omega) (b9m tk htk)
      · exact le_trans (by omega) (b10m tk htk)
      · exact le_trans (by omega) (b11m tk htk)
      · exact le_trans (by omega) (b12m tk htk)
      · exact le_trans (by omega) (b13m tk htk)
      · exact le_trans (by omega) (b14m tk htk)
      · exact le_trans (by omega) (b15m tk htk)
      · exact le_trans (by omega) (b16m tk htk)
      · exact le_trans (by omega) (b17m tk htk)
      · exact le_trans (by omega) (b18m tk htk)
    · omega

/-- Token bound for `HeaderFile` deep copies. -/
theorem headerFile_deepcopy_toks_bound (f : HeaderFile) (c : Nat) :
    (∀ tk ∈ (f.deepcopy c).1.toks, c ≤ tk) ∧ c ≤ (f.deepcopy c).2 := by
  rcases h1 : f._ifcProjectId.deepcopy c with ⟨w1, c1⟩
  rcases h2 : f._ifcSpatialStructureElement.deepcopy c1 with ⟨w2, c2⟩
  rcases h3 : f._external.deepcopy c2 with ⟨w3, c3⟩
  rcases h4 : f._filename.deepcopy c3 with ⟨w4, c4⟩
  rcases h5 : f._time.deepcopy c4 with ⟨w5, c5⟩
  rcases h6 : f._reference.deepcopy c5 with ⟨w6, c6⟩
  obtain ⟨b1m, b1c⟩ := attr_deepcopy_toks_bound' h1
  obtain ⟨b2m, b2c⟩ := attr_deepcopy_toks_bound' h2
  obtain ⟨b3m, b3c⟩ := attr_deepcopy_toks_bound' h3
  obtain ⟨b4m, b4c⟩ := selem_deepcopy_toks_bound' h4
  obtain ⟨b5m, b5c⟩ := selem_deepcopy_toks_bound' h5
  obtain ⟨b6m, b6c⟩ := selem_deepcopy_toks_bound' h6
  unfold HeaderFile.deepcopy
  simp only [h1, h2, h3, h4, h5, h6, HeaderFile.init, Attribute.init,
    SimpleElement.init]
  constructor
  · intro tk htk
    simp only [HeaderFile.toks, selem_toks_restamp,
      attr_toks_restamp, List.mem_cons, List.mem_append,
      or_assoc] at htk
    rcases htk with rfl | htk | htk | htk | htk | htk | htk
    · omega
    · exact le_trans (by omega) (b1m tk htk)
    · exact le_trans (by omega) (b2m tk htk)
    · exact le_trans (by omega) (b3m tk htk)
    · exact le_trans (by omega) (b4m tk htk)
    · exact le_trans (by omega) (b5m tk htk)
    · exact le_trans (by omega) (b6m tk htk)
  · omega

/-- Equation form of the `HeaderFile` token bound. -/
theorem headerFile_deepcopy_toks_bound' {f : HeaderFile} {c : Nat}
    {y : HeaderFile} {c' : Nat} (heq : f.deepcopy c = (y, c')) :
    (∀ tk ∈ y.toks, c ≤ tk) ∧ c ≤ c' := by
  have h := headerFile_deepcopy_toks_bound f c
  rw [heq] at h
  exact h

/-- Token bound for `Header` deep copies. -/
theorem header_deepcopy_toks_bound (h : Header) (c : Nat) :
    (∀ tk ∈ (h.deepcopy c).1.toks, c ≤ tk) ∧ c ≤ (h.deepcopy c).2 := by
  rcases hfs : deepcopyList HeaderFile.deepcopy h.files c with ⟨fs, c1⟩
  obtain ⟨bm, bc⟩ := deepcopyList_toks_bound'
    headerFile_deepcopy_toks_bound hfs
  unfold Header.deepcopy
  simp only [hfs, Header.init]
  constructor
  · intro tk htk
    simp only [Header.toks, headerFile_toks_restamp, List.map_map,
      Function.comp, List.mem_cons, List.mem_flatten, List.mem_map,
      or_assoc] at htk
    rcases htk with rfl | ⟨ts, ⟨y, hy, rfl⟩, htk⟩
    · omega
    · exact le_trans (by omega) (bm y hy tk htk)
  · omega

/-- Equation form of the `Header` token bound. -/
theorem header_deepcopy_toks_bound' {h : Header} {c : Nat} {y : Header}
    {c' : Nat} (heq : h.deepcopy c = (y, c')) :
    (∀ tk ∈ y.toks, c ≤ tk) ∧ c ≤ c' := by
  have hb := header_deepcopy_toks_bound h c
  rw [heq] at hb
  exact hb

/-- Token bound for `ViewpointReference` deep copies. -/
theorem vpRef_deepcopy_toks_bound (v : ViewpointReference)
    (c : Nat) :
    (∀ tk ∈ (v.deepcopy c).1.toks, c ≤ tk) ∧ c ≤ (v.deepcopy c).2 := by
  rcases h1 : v._file.deepcopy c with ⟨w1, c1⟩
  rcases h2 : v._snapshot.deepcopy c1 with ⟨w2, c2⟩
  rcases h3 : v._index.deepcopy c2 with ⟨w3, c3⟩
  obtain ⟨b1m, b1c⟩ := selem_deepcopy_toks_bound' h1
  obtain ⟨b2m, b2c⟩ := selem_deepcopy_toks_bound' h2
  obtain ⟨b3m, b3c⟩ := selem_deepcopy_toks_bound' h3
  cases hv : v._viewpoint with
  | none =>
    unfold ViewpointReference.deepcopy
    simp only [h1, h2, h3, hv, ViewpointReference.init, SimpleElement.init,
      ViewpointReference.setViewpoint]
    constructor
    · intro tk htk
      simp only [ViewpointReference.toks, selem_toks_restamp,
        viewpoint_toks_restamp, List.mem_cons, List.mem_append,
        Option.map_none', List.append_nil, or_assoc] at htk
      rcases htk with rfl | htk | htk | htk
      · omega
      · exact le_trans (by omega) (b1m tk htk)
      · exact le_trans (by omega) (b2m tk htk)
      · exact le_trans (by omega) (b3m tk htk)
    · omega
  | some vp =>
    rcases hvp : vp.deepcopy c3 with ⟨vp2, c4⟩
    obtain ⟨b4m, b4c⟩ := viewpoint_deepcopy_toks_bound' hvp
    unfold ViewpointReference.deepcopy
    simp only [h1, h2, h3, hv, hvp, ViewpointReference.init,
      SimpleElement.init, ViewpointReference.setViewpoint]
    constructor
    · intro tk htk
      simp only [ViewpointReference.toks, selem_toks_restamp,
        viewpoint_toks_restamp, List.mem_cons, List.mem_append,
        Option.map_some', or_assoc] at htk
      rcases htk with rfl | htk | htk | htk | htk
      · omega
      · exact le_trans (by omega) (b1m tk htk)
      · exact le_trans (by omega) (b2m tk htk)
      · exact le_trans (by omega) (b3m tk htk)
      · exact le_trans (by omega) (b4m tk htk)
    · omega

/-- Equation form of the `ViewpointReference` token bound. -/
theorem vpRef_deepcopy_toks_bound' {v : ViewpointReference}
    {c : Nat} {y : ViewpointReference} {c' : Nat}
    (heq : v.deepcopy c = (y, c')) :
    (∀ tk ∈ y.toks, c ≤ tk) ∧ c ≤ c' := by
  have h := vpRef_deepcopy_toks_bound v c
  rw [heq] at h
  exact h

/-- Token bound for `Comment` deep copies. -/
theorem comment_deepcopy_toks_bound (cm : Comment) (c : Nat) :
    (∀ tk ∈ (cm.deepcopy c).1.toks, c ≤ tk) ∧ c ≤ (cm.deepcopy c).2 := by
  rcases h1 : cm._comment.deepcopy c with ⟨w1, c1⟩
  obtain ⟨b1m, b1c⟩ := selem_deepcopy_toks_bound' h1
  cases hv : cm.viewpoint with
  | none =>
    rcases h2 : cm._date.deepcopy c1 with ⟨w2, c3⟩
    rcases h3 : cm._author.deepcopy c3 with ⟨w3, c4⟩
    rcases h4 : cm._modDate.deepcopy c4 with ⟨w4, c5⟩
    rcases h5 : cm._modAuthor.deepcopy c5 with ⟨w5, c6⟩
    obtain ⟨b2m, b2c⟩ := selem_deepcopy_toks_bound' h2
    obtain ⟨b3m, b3c⟩ := selem_deepcopy_toks_bound' h3
    obtain ⟨b4m, b4c⟩ := selem_deepcopy_toks_bound' h4
    obtain ⟨b5m, b5c⟩ := selem_deepcopy_toks_bound' h5
    unfold Comment.deepcopy
    simp only [h1, h2, h3, h4, h5, hv, Comment.init, SimpleElement.init]
    constructor
    · intro tk htk
      simp only [Comment.toks, selem_toks_restamp,
        vpRef_toks_restamp, List.mem_cons, List.mem_append,
        Option.map_none', List.append_nil, or_assoc] at htk
      rcases htk with rfl | htk | htk | htk | htk | htk
      · omega
      · exact le_trans (by omega) (b1m tk htk)
      · exact le_trans (by omega) (b2m tk htk)
      · exact le_trans (by omega) (b3m tk htk)
      · exact le_trans (by omega) (b4m tk htk)
      · exact le_trans (by omega) (b5m tk htk)
    · omega
  | some vp =>
    rcases hvp : vp.deepcopy c1 with ⟨vp2, c2⟩
    rcases h2 : cm._date.deepcopy c2 with ⟨w2, c3⟩
    rcases h3 : cm._author.deepcopy c3 with ⟨w3, c4⟩
    rcases h4 : cm._modDate.deepcopy c4 with ⟨w4, c5⟩
    rcases h5 : cm._modAuthor.deepcopy c5 with ⟨w5, c6⟩
    obtain ⟨bvm, bvc⟩ := vpRef_deepcopy_toks_bound' hvp
    obtain ⟨b2m, b2c⟩ := selem_deepcopy_toks_bound' h2
    obtain ⟨b3m, b3c⟩ := selem_deepcopy_toks_bound' h3
    obtain ⟨b4m, b4c⟩ := selem_deepcopy_toks_bound' h4
    obtain ⟨b5m, b5c⟩ := selem_deepcopy_toks_bound' h5
    unfold Comment.deepcopy
    simp only [h1, h2, h3, h4, h5, hv, hvp, Comment.init, SimpleElement.init]
    constructor
    · intro tk htk
      simp only [Comment.toks, selem_toks_restamp,
        vpRef_toks_restamp, List.mem_cons, List.mem_append,
        Option.map_some', or_assoc] at htk
      rcases htk with rfl | htk | htk | htk | htk | htk | htk
      · omega
      · exact le_trans (by omega) (b1m tk htk)
      · exact le_trans (by omega) (bvm tk htk)
      · exact le_trans (by omega) (b2m tk htk)
      · exact le_trans (by omega) (b3m tk htk)
      · exact le_trans (by omega) (b4m tk htk)
      · exact le_trans (by omega) (b5m tk htk)
    · omega

/-- Equation form of the `Comment` token bound. -/
theorem comment_deepcopy_toks_bound' {cm : Comment} {c : Nat} {y : Comment}
    {c' : Nat} (heq : cm.deepcopy c = (y, c')) :
    (∀ tk ∈ y.toks, c ≤ tk) ∧ c ≤ c' := by
  have h := comment_deepcopy_toks_bound cm c
  rw [heq] at h
  exact h

/-- Equation form of the `Topic` token bound. -/
theorem topic_deepcopy_toks_bound' {t : Topic} {c : Nat} {y : Topic}
    {c' : Nat} (heq : t.deepcopy c = (y, c')) :
    (∀ tk ∈ y.toks, c ≤ tk) ∧ c ≤ c' := by
  have h := topic_deepcopy_toks_bound t c
  rw [heq] at h
  exact h

/-- Token bound for `Markup` deep copies. -/
theorem markup_deepcopy_toks_bound (m : Markup) (c : Nat) :
    (∀ tk ∈ (m.deepcopy c).1.toks, c ≤ tk) ∧ c ≤ (m.deepcopy c).2 := by
  cases hmt : m.topic with
  | none =>
    cases hmh : m.header with
    | none =>
      rcases hcs : deepcopyList Comment.deepcopy m.comments c with ⟨cs, c3⟩
      rcases hvs : deepcopyList ViewpointReference.deepcopy m.viewpoints c3
        with ⟨vs, c4⟩
      obtain ⟨bcm, bcc⟩ := deepcopyList_toks_bound'
        comment_deepcopy_toks_bound hcs
      obtain ⟨bvm, bvc⟩ := deepcopyList_toks_bound'
        vpRef_deepcopy_toks_bound hvs
      unfold Markup.deepcopy
      simp only [hmt, hmh, hcs, hvs, Markup.init]
      constructor
      · intro tk htk
        simp only [Markup.toks, comment_toks_restamp,
          vpRef_toks_restamp, topic_toks_restamp,
          header_toks_restamp, List.map_map, Function.comp, List.mem_cons,
          List.mem_append, List.mem_flatten, List.mem_map, Option.map_none',
          List.nil_append, List.not_mem_nil, false_or, or_assoc] at htk
        rcases htk with rfl | ⟨ts, ⟨y, hy, rfl⟩, htk⟩ | ⟨ts, ⟨y, hy, rfl⟩, htk⟩
        · omega
        · exact le_trans (by omega) (bcm y hy tk htk)
        · exact le_trans (by omega) (bvm y hy tk htk)
      · omega
    | some hd =>
      rcases hhd : hd.deepcopy c with ⟨hd2, c2⟩
      rcases hcs : deepcopyList Comment.deepcopy m.comments c2 with ⟨cs, c3⟩
      rcases hvs : deepcopyList ViewpointReference.deepcopy m.viewpoints c3
        with ⟨vs, c4⟩
      obtain ⟨bhm, bhc⟩ := header_deepcopy_toks_bound' hhd
      obtain ⟨bcm, bcc⟩ := deepcopyList_toks_bound'
        comment_deepcopy_toks_bound hcs
      obtain ⟨bvm, bvc⟩ := deepcopyList_toks_bound'
        vpRef_deepcopy_toks_bound hvs
      unfold Markup.deepcopy
      simp only [hmt, hmh, hhd, hcs, hvs, Markup.init]
      constructor
      · intro tk htk
        simp only [Markup.toks, comment_toks_restamp,
          vpRef_toks_restamp, topic_toks_restamp,
          header_toks_restamp, List.map_map, Function.comp, List.mem_cons,
          List.mem_append, List.mem_flatten, List.mem_map, Option.map_none',
          Option.map_some', List.nil_append, List.not_mem_nil, false_or, or_assoc] at htk
        rcases htk with rfl | htk | ⟨ts, ⟨y, hy, rfl⟩, htk⟩ |
          ⟨ts, ⟨y, hy, rfl⟩, htk⟩
        · omega
        · exact le_trans (by omega) (bhm tk htk)
        · exact le_trans (by omega) (bcm y hy tk htk)
        · exact le_trans (by omega) (bvm y hy tk htk)
      · omega
  | some t =>
    rcases htc : t.deepcopy c with ⟨t2, c1⟩
    obtain ⟨btm, btc⟩ := topic_deepcopy_toks_bound' htc
    cases hmh : m.header with
    | none =>
      rcases hcs : deepcopyList Comment.deepcopy m.comments c1 with ⟨cs, c3⟩
      rcases hvs : deepcopyList ViewpointReference.deepcopy m.viewpoints c3
        with ⟨vs, c4⟩
      obtain ⟨bcm, bcc⟩ := deepcopyList_toks_bound'
        comment_deepcopy_toks_bound hcs
      obtain ⟨bvm, bvc⟩ := deepcopyList_toks_bound'
        vpRef_deepcopy_toks_bound hvs
      unfold Markup.deepcopy
      simp only [hmt, hmh, htc, hcs, hvs, Markup.init]
      constructor
      · intro tk htk
        simp only [Markup.toks, comment_toks_restamp,
          vpRef_toks_restamp, topic_toks_restamp,
          header_toks_restamp, List.map_map, Function.comp, List.mem_cons,
          List.mem_append, List.mem_flatten, List.mem_map, Option.map_none',
          Option.map_some', List.nil_append, List.not_mem_nil, false_or, or_assoc] at htk
        rcases htk with rfl | htk | ⟨ts, ⟨y, hy, rfl⟩, htk⟩ |
          ⟨ts, ⟨y, hy, rfl⟩, htk⟩
        · omega
        · exact le_trans (by omega) (btm tk htk)
        · exact le_trans (by omega) (bcm y hy tk htk)
        · exact le_trans (by omega) (bvm y hy tk htk)
      · omega
    | some hd =>
      rcases hhd : hd.deepcopy c1 with ⟨hd2, c2⟩
      rcases hcs : deepcopyList Comment.deepcopy m.comments c2 with ⟨cs, c3⟩
      rcases hvs : deepcopyList ViewpointReference.deepcopy m.viewpoints c3
        with ⟨vs, c4⟩
      obtain ⟨bhm, bhc⟩ := header_deepcopy_toks_bound' hhd
      obtain ⟨bcm, bcc⟩ := deepcopyList_toks_bound'
        comment_deepcopy_toks_bound hcs
      obtain ⟨bvm, bvc⟩ := deepcopyList_toks_bound'
        vpRef_deepcopy_toks_bound hvs
      unfold Markup.deepcopy
      simp only [hmt, hmh, htc, hhd, hcs, hvs, Markup.init]
      constructor
      · intro tk htk
        simp only [Markup.toks, comment_toks_restamp,
          vpRef_toks_restamp, topic_toks_restamp,
          header_toks_restamp, List.map_map, Function.comp, List.mem_cons,
          List.mem_append, List.mem_flatten, List.mem_map, Option.map_some', List.not_mem_nil, false_or,
          or_assoc] at htk
        rcases htk with rfl | htk | htk | ⟨ts, ⟨y, hy, rfl⟩, htk⟩ |
          ⟨ts, ⟨y, hy, rfl⟩, htk⟩
        · omega
        · exact le_trans (by omega) (bhm tk htk)
        · exact le_trans (by omega) (btm tk htk)
        · exact le_trans (by omega) (bcm y hy tk htk)
        · exact le_trans (by omega) (bvm y hy tk htk)
      · omega

/-- A markup's own token is among its subtree's tokens. -/
theorem markup_tok_mem_toks (m : Markup) : m.tok ∈ m.toks := by
  simp [Markup.toks]

/-- The copy produced by `Markup.__deepcopy__` carries no parent
back-reference of its own, and every member — topic, header, each comment,
each viewpoint reference — has its `containingObject` re-stamped to the copy
itself. -/
theorem Markup.deepcopy_fields (m : Markup) (c : Nat) :
    ((m.deepcopy c).1).containingObject = none ∧
    (∀ t2 ∈ (m.deepcopy c).1.topic,
      t2.containingObject = some (m.deepcopy c).1.tok) ∧
    (∀ h2 ∈ (m.deepcopy c).1.header,
      h2.containingObject = some (m.deepcopy c).1.tok) ∧
    (∀ cm ∈ (m.deepcopy c).1.comments,
      cm.containingObject = some (m.deepcopy c).1.tok) ∧
    (∀ v ∈ (m.deepcopy c).1.viewpoints,
      v.containingObject = some (m.deepcopy c).1.tok) := by
  cases hmt : m.topic with
  | none =>
    cases hmh : m.header with
    | none =>
      rcases hcs : deepcopyList Comment.deepcopy m.comments c with ⟨cs, c3⟩
      rcases hvs : deepcopyList ViewpointReference.deepcopy m.viewpoints c3
        with ⟨vs, c4⟩
      unfold Markup.deepcopy
      simp only [hmt, hmh, hcs, hvs, Markup.init]
      refine ⟨trivial, by simp, by simp, ?_, ?_⟩
      · intro cm hcm
        simp only [List.map_map, List.mem_map, Function.comp] at hcm
        obtain ⟨y, _, rfl⟩ := hcm
        rfl
      · intro v hv
        simp only [List.map_map, List.mem_map, Function.comp] at hv
        obtain ⟨y, _, rfl⟩ := hv
        rfl
    | some hd =>
      rcases hhd : hd.deepcopy c with ⟨hd2, c2⟩
      rcases hcs : deepcopyList Comment.deepcopy m.comments c2 with ⟨cs, c3⟩
      rcases hvs : deepcopyList ViewpointReference.deepcopy m.viewpoints c3
        with ⟨vs, c4⟩
      unfold Markup.deepcopy
      simp only [hmt, hmh, hhd, hcs, hvs, Markup.init]
      refine ⟨trivial, by simp, by simp [Option.map_some'], ?_, ?_⟩
      · intro cm hcm
        simp only [List.map_map, List.mem_map, Function.comp] at hcm
        obtain ⟨y, _, rfl⟩ := hcm
        rfl
      · intro v hv
        simp only [List.map_map, List.mem_map, Function.comp] at hv
        obtain ⟨y, _, rfl⟩ := hv
        rfl
  | some t =>
    rcases htc : t.deepcopy c with ⟨t2, c1⟩
    cases hmh : m.header with
    | none =>
      rcases hcs : deepcopyList Comment.deepcopy m.comments c1 with ⟨cs, c3⟩
      rcases hvs : deepcopyList ViewpointReference.deepcopy m.viewpoints c3
        with ⟨vs, c4⟩
      unfold Markup.deepcopy
      simp only [hmt, hmh, htc, hcs, hvs, Markup.init]
      refine ⟨trivial, by simp [Option.map_some'], by simp, ?_, ?_⟩
      · intro cm hcm
        simp only [List.map_map, List.mem_map, Function.comp] at hcm
        obtain ⟨y, _, rfl⟩ := hcm
        rfl
      · intro v hv
        simp only [List.map_map, List.mem_map, Function.comp] at hv
        obtain ⟨y, _, rfl⟩ := hv
        rfl
    | some hd =>
      rcases hhd : hd.deepcopy c1 with ⟨hd2, c2⟩
      rcases hcs : deepcopyList Comment.deepcopy m.comments c2 with ⟨cs, c3⟩
      rcases hvs : deepcopyList ViewpointReference.deepcopy m.viewpoints c3
        with ⟨vs, c4⟩
      unfold Markup.deepcopy
      simp only [hmt, hmh, htc, hhd, hcs, hvs, Markup.init]
      refine ⟨trivial, by simp [Option.map_some'], by simp [Option.map_some'],
        ?_, ?_⟩
      · intro cm hcm
        simp only [List.map_map, List.mem_map, Function.comp] at hcm
        obtain ⟨y, _, rfl⟩ := hcm
        rfl
      · intro v hv
        simp only [List.map_map, List.mem_map, Function.comp] at hv
        obtain ⟨y, _, rfl⟩ := hv
        rfl

/-- C6: deep-copying a markup re-stamps the `containingObject` of its topic,
header, every comment and every viewpoint reference to the copy itself; the
copy's own `containingObject` is `None`; the copy shares no object with the
original (so mutating any part of the copy leaves the original unchanged),
and in particular no member of the copy points at the original's parent. -/
theorem C6_markup_deepcopy_reparenting (m : Markup) (c : Nat)
    (hfresh : ∀ tk ∈ m.toks, tk < c) :
    ((m.deepcopy c).1).containingObject = none ∧
    (∀ t2 ∈ (m.deepcopy c).1.topic,
      t2.containingObject = some (m.deepcopy c).1.tok) ∧
    (∀ h2 ∈ (m.deepcopy c).1.header,
      h2.containingObject = some (m.deepcopy c).1.tok) ∧
    (∀ cm ∈ (m.deepcopy c).1.comments,
      cm.containingObject = some (m.deepcopy c).1.tok) ∧
    (∀ v ∈ (m.deepcopy c).1.viewpoints,
      v.containingObject = some (m.deepcopy c).1.tok) ∧
    (∀ tk ∈ (m.deepcopy c).1.toks, tk ∉ m.toks) ∧
    (∀ ptk, m.containingObject = some ptk → ptk < c →
      some (m.deepcopy c).1.tok ≠ some ptk) := by
  obtain ⟨hf1, hf2, hf3, hf4, hf5⟩ := Markup.deepcopy_fields m c
  obtain ⟨hbm, hbc⟩ := markup_deepcopy_toks_bound m c
  refine ⟨hf1, hf2, hf3, hf4, hf5, ?_, ?_⟩
  · intro tk htk hmem
    exact absurd (hfresh tk hmem) (not_lt.mpr (hbm tk htk))
  · intro ptk hp hlt heq
    have h1 : c ≤ (m.deepcopy c).1.tok :=
      hbm _ (markup_tok_mem_toks (m.deepcopy c).1)
    have h2 : (m.deepcopy c).1.tok = ptk := Option.some.inj heq
    omega

/-- Witness for C6 at a concrete markup with topic, header, a comment and a
viewpoint reference, copied at a fresh counter. -/
theorem C6_markup_deepcopy_reparenting_witness :
    (∀ tk ∈ markupC6.toks, tk < 1000) ∧
    (((markupC6.deepcopy 1000).1).containingObject = none ∧
      (∀ t2 ∈ (markupC6.deepcopy 1000).1.topic,
        t2.containingObject = some (markupC6.deepcopy 1000).1.tok) ∧
      (∀ h2 ∈ (markupC6.deepcopy 1000).1.header,
        h2.containingObject = some (markupC6.deepcopy 1000).1.tok) ∧
      (∀ cm ∈ (markupC6.deepcopy 1000).1.comments,
        cm.containingObject = some (markupC6.deepcopy 1000).1.tok) ∧
      (∀ v ∈ (markupC6.deepcopy 1000).1.viewpoints,
        v.containingObject = some (markupC6.deepcopy 1000).1.tok) ∧
      (∀ tk ∈ (markupC6.deepcopy 1000).1.toks, tk ∉ markupC6.toks) ∧
      (∀ ptk, markupC6.containingObject = some ptk → ptk < 1000 →
        some (markupC6.deepcopy 1000).1.tok ≠ some ptk)) :=
  ⟨by decide, C6_markup_deepcopy_reparenting markupC6 1000 (by decide)⟩
